import Mathlib

/-!
# SceneManager / ViewManager: a shallow embedding

Source files embedded here:

* `Source/SceneManager.cpp`: texture registry, material table, uniform setters,
  `PrepareScene`, `RenderScene`.
* `Source/ViewManager.cpp`: mouse callback, keyboard handling, projection set-up.

Conventions of the embedding.

* A C++ `float` / `double` value is a rational number and arithmetic on it is exact;
  rounding is not modelled.  Transcendental library functions (`cos`, `sin`, `tan`,
  `inversesqrt`) are parameters, collected in `FloatOps`.  The exception is
  `Mouse_Position_Callback`, whose `double` arguments are narrowed to `float`: there
  the casts and the float subtractions round to binary32 (`toBinary32`).
* Undefined behaviour (an access outside `m_textureIDs`, a call through a null
  `m_pShaderManager`) makes an operation return `none`.
* `while` loops are total functions defined by well-founded recursion on the loop state.
-/

set_option autoImplicit false

namespace CS330

/-! ## Values -/

/-- The value type of C++ `float` and `double` expressions. -/
abbrev float := ℚ

/-- The `glm::vec2` type. -/
structure vec2 where
  x : float
  y : float
deriving DecidableEq, Repr

/-- The `glm::vec3` type. -/
structure vec3 where
  x : float
  y : float
  z : float
deriving DecidableEq, Repr

/-- The `glm::vec4` type. -/
structure vec4 where
  x : float
  y : float
  z : float
  w : float
deriving DecidableEq, Repr

/-- The `glm::mat4` type, as the mathematical matrix (row index first). -/
abbrev mat4 := Matrix (Fin 4) (Fin 4) float

/-- Library functions on floats that have no rational closed form. -/
structure FloatOps where
  cos : float → float
  sin : float → float
  tan : float → float
  inversesqrt : float → float

/-! ## Shader manager -/

/-- A value uploaded to a named uniform. -/
inductive UniformValue where
  | int (v : Int)
  | float (v : CS330.float)
  | vec2 (v : CS330.vec2)
  | vec3 (v : CS330.vec3)
  | vec4 (v : CS330.vec4)
  | mat4 (v : CS330.mat4)
  | sampler2D (v : Int)

/-- Modelled from the spec: `ShaderManager` (ShaderManager.cpp is not among the
sources) is "a named-uniform upload contract": `setMat4/setVec2/setVec3/setVec4/
setInt/setFloat(name, value)`.  The state is the sequence of uploads made so far,
newest first; the value a uniform holds is the newest upload under its name. -/
structure ShaderManager where
  uploads : List (String × UniformValue)

/-- The value currently held by the uniform `name`, if it was ever uploaded. -/
def ShaderManager.uniform (sm : ShaderManager) (name : String) : Option UniformValue :=
  sm.uploads.lookup name

def ShaderManager.setIntValue (sm : ShaderManager) (name : String) (v : Int) :
    ShaderManager :=
  ⟨(name, UniformValue.int v) :: sm.uploads⟩

def ShaderManager.setFloatValue (sm : ShaderManager) (name : String) (v : float) :
    ShaderManager :=
  ⟨(name, UniformValue.float v) :: sm.uploads⟩

def ShaderManager.setVec2Value (sm : ShaderManager) (name : String) (v : vec2) :
    ShaderManager :=
  ⟨(name, UniformValue.vec2 v) :: sm.uploads⟩

def ShaderManager.setVec3Value (sm : ShaderManager) (name : String) (v : vec3) :
    ShaderManager :=
  ⟨(name, UniformValue.vec3 v) :: sm.uploads⟩

def ShaderManager.setVec4Value (sm : ShaderManager) (name : String) (v : vec4) :
    ShaderManager :=
  ⟨(name, UniformValue.vec4 v) :: sm.uploads⟩

def ShaderManager.setMat4Value (sm : ShaderManager) (name : String) (v : mat4) :
    ShaderManager :=
  ⟨(name, UniformValue.mat4 v) :: sm.uploads⟩

def ShaderManager.setSampler2DValue (sm : ShaderManager) (name : String) (v : Int) :
    ShaderManager :=
  ⟨(name, UniformValue.sampler2D v) :: sm.uploads⟩

/-! ## Scene manager state -/

/-- One slot of `m_textureIDs`.  `ID` is the value of the slot's `ID` member as the
lookups read it into an `int`; the member's declared type is in SceneManager.h. -/
structure TEXTURE_INFO where
  ID : Int
  tag : String
deriving DecidableEq, Repr

/-- An entry of `m_objectMaterials`. -/
structure OBJECT_MATERIAL where
  ambientColor : vec3
  ambientStrength : float
  diffuseColor : vec3
  specularColor : vec3
  shininess : float
  tag : String
deriving DecidableEq, Repr

/-- What `stbi_load` reports for a decoded image. -/
structure StbImage where
  width : Int
  height : Int
  colorChannels : Int
deriving DecidableEq, Repr

/-- The members of `SceneManager`.

* `m_pShaderManager`: `none` is the null pointer.
* `m_basicMeshes`: the mesh library is external; the calls made on it are recorded,
  newest first.
* `m_textureIDs`: the whole slot array, used or not; its length is the capacity
  declared in SceneManager.h ("There are up to 16 slots").
* `glNames`: the texture names the GL context will hand out to the coming
  `glGenTextures` calls, in order. -/
structure SceneManager where
  m_pShaderManager : Option ShaderManager
  m_basicMeshes : List String
  m_textureIDs : List TEXTURE_INFO
  m_loadedTextures : Int
  m_objectMaterials : List OBJECT_MATERIAL
  glNames : List Nat

/-! ## Texture registry -/

/-- The `while` loop of `FindTextureSlot`, on its three locals. -/
def FindTextureSlot.loop (s : SceneManager) (tag : String)
    (index : Nat) (bFound : Bool) (textureSlot : Int) : Option Int :=
  if h : (index : Int) < s.m_loadedTextures ∧ bFound = false then
    match s.m_textureIDs[index]? with
    | none => none
    | some e =>
      if e.tag = tag then
        FindTextureSlot.loop s tag index true (index : Int)
      else
        FindTextureSlot.loop s tag (index + 1) bFound textureSlot
  else
    some textureSlot
termination_by 2 * (s.m_loadedTextures - index).toNat + (if bFound then 0 else 1)
decreasing_by
  all_goals simp_wf
  all_goals obtain ⟨h1, h2⟩ := h
  all_goals subst h2
  all_goals (try simp)
  all_goals omega

/-- The method `SceneManager::FindTextureSlot`. -/
def FindTextureSlot (s : SceneManager) (tag : String) : Option Int :=
  FindTextureSlot.loop s tag 0 false (-1)

/-- The `while` loop of `FindTextureID`, on its three locals. -/
def FindTextureID.loop (s : SceneManager) (tag : String)
    (index : Nat) (bFound : Bool) (textureID : Int) : Option Int :=
  if h : (index : Int) < s.m_loadedTextures ∧ bFound = false then
    match s.m_textureIDs[index]? with
    | none => none
    | some e =>
      if e.tag = tag then
        FindTextureID.loop s tag index true e.ID
      else
        FindTextureID.loop s tag (index + 1) bFound textureID
  else
    some textureID
termination_by 2 * (s.m_loadedTextures - index).toNat + (if bFound then 0 else 1)
decreasing_by
  all_goals simp_wf
  all_goals obtain ⟨h1, h2⟩ := h
  all_goals subst h2
  all_goals (try simp)
  all_goals omega

/-- The method `SceneManager::FindTextureID`. -/
def FindTextureID (s : SceneManager) (tag : String) : Option Int :=
  FindTextureID.loop s tag 0 false (-1)

/-- The conversion of a `GLuint` texture name to the `int` the lookups return:
reduction modulo `2^32` into the two's-complement range. -/
def intOfGLuint (n : Nat) : Int :=
  if n % 2 ^ 32 < 2 ^ 31 then ((n % 2 ^ 32 : Nat) : Int)
  else ((n % 2 ^ 32 : Nat) : Int) - 2 ^ 32

/-- The call `glGenTextures(1, &textureID)`: the context writes its next texture name
into `textureID`; with no name to hand out the variable keeps its value. -/
def glGenTextures (s : SceneManager) (textureID : Nat) : Nat × SceneManager :=
  match s.glNames with
  | [] => (textureID, s)
  | n :: rest => (n, { s with glNames := rest })

/-- The last statements of `CreateGLTexture` (source lines 113-117): write `ID` and
`tag` into slot `m_loadedTextures`, increment the count, return `true`.  A slot
index outside the array is undefined behaviour. -/
def CreateGLTexture.register (s : SceneManager) (textureID : Nat) (tag : String) :
    Option (Bool × SceneManager) :=
  if 0 ≤ s.m_loadedTextures ∧ s.m_loadedTextures < (s.m_textureIDs.length : Int) then
    some (true,
      { s with
        m_textureIDs :=
          s.m_textureIDs.set s.m_loadedTextures.toNat ⟨intOfGLuint textureID, tag⟩
        m_loadedTextures := s.m_loadedTextures + 1 })
  else
    none

/-- The method `SceneManager::CreateGLTexture`.  `stbi_load` is the image decoder
together with the file system: `none` is the null image pointer. -/
def CreateGLTexture (stbi_load : String → Option StbImage) (s : SceneManager)
    (filename : String) (tag : String) : Option (Bool × SceneManager) :=
  let textureID : Nat := 0
  match stbi_load filename with
  | some image =>
    let (textureID, s) := glGenTextures s textureID
    if image.colorChannels = 3 then
      CreateGLTexture.register s textureID tag
    else if image.colorChannels = 4 then
      CreateGLTexture.register s textureID tag
    else
      some (false, s)
  | none => some (false, s)

/-! ## Material table -/

/-- The `while` loop of `FindMaterial`, on the locals `index`, `bFound` and the
output parameter `material`. -/
def FindMaterial.loop (s : SceneManager) (tag : String)
    (index : Nat) (bFound : Bool) (material : OBJECT_MATERIAL) :
    Bool × OBJECT_MATERIAL :=
  if h : index < s.m_objectMaterials.length ∧ bFound = false then
    if (s.m_objectMaterials.get ⟨index, h.1⟩).tag = tag then
      FindMaterial.loop s tag index true
        { material with
          ambientColor := (s.m_objectMaterials.get ⟨index, h.1⟩).ambientColor
          ambientStrength := (s.m_objectMaterials.get ⟨index, h.1⟩).ambientStrength
          diffuseColor := (s.m_objectMaterials.get ⟨index, h.1⟩).diffuseColor
          specularColor := (s.m_objectMaterials.get ⟨index, h.1⟩).specularColor
          shininess := (s.m_objectMaterials.get ⟨index, h.1⟩).shininess }
    else
      FindMaterial.loop s tag (index + 1) bFound material
  else
    (bFound, material)
termination_by 2 * (s.m_objectMaterials.length - index) + (if bFound then 0 else 1)
decreasing_by
  all_goals simp_wf
  all_goals obtain ⟨h1, h2⟩ := h
  all_goals subst h2
  all_goals (try simp)
  all_goals omega

/-- The method `SceneManager::FindMaterial`: the returned pair is the `bool` result
and the final contents of the reference parameter `material`. -/
def FindMaterial (s : SceneManager) (tag : String) (material : OBJECT_MATERIAL) :
    Bool × OBJECT_MATERIAL :=
  if s.m_objectMaterials.length = 0 then
    (false, material)
  else
    let (_, material) := FindMaterial.loop s tag 0 false material
    (true, material)

/-! ## GLM -/

namespace glm

/-- External library (GLM): `glm::radians`, multiplication by the constant of the
library source. -/
def radians (degrees : float) : float :=
  degrees * 0.01745329251994329576923690768489

/-- External library (GLM): `glm::dot` on `vec3`. -/
def dot (a b : vec3) : float :=
  a.x * b.x + a.y * b.y + a.z * b.z

/-- External library (GLM): `glm::normalize`, `v * inversesqrt(dot(v, v))`. -/
def normalize (ops : FloatOps) (v : vec3) : vec3 :=
  ⟨v.x * ops.inversesqrt (dot v v), v.y * ops.inversesqrt (dot v v),
    v.z * ops.inversesqrt (dot v v)⟩

/-- External library (GLM): `glm::scale(v)`. -/
def scale (v : vec3) : mat4 :=
  !![v.x, 0, 0, 0;
     0, v.y, 0, 0;
     0, 0, v.z, 0;
     0, 0, 0, 1]

/-- External library (GLM): `glm::translate(v)`. -/
def translate (v : vec3) : mat4 :=
  !![1, 0, 0, v.x;
     0, 1, 0, v.y;
     0, 0, 1, v.z;
     0, 0, 0, 1]

/-- External library (GLM): `glm::rotate(angle, v)`, the rotation by `angle` radians
about the normalized axis `v`, entry by entry as the library builds it. -/
def rotate (ops : FloatOps) (angle : float) (v : vec3) : mat4 :=
  let c := ops.cos angle
  let s := ops.sin angle
  let axis := normalize ops v
  let temp : vec3 := ⟨(1 - c) * axis.x, (1 - c) * axis.y, (1 - c) * axis.z⟩
  !![c + temp.x * axis.x, temp.y * axis.x - s * axis.z, temp.z * axis.x + s * axis.y, 0;
     temp.x * axis.y + s * axis.z, c + temp.y * axis.y, temp.z * axis.y - s * axis.x, 0;
     temp.x * axis.z - s * axis.y, temp.y * axis.z + s * axis.x, c + temp.z * axis.z, 0;
     0, 0, 0, 1]

/-- External library (GLM): `glm::ortho(left, right, bottom, top, zNear, zFar)`. -/
def ortho (left right bottom top zNear zFar : float) : mat4 :=
  !![2 / (right - left), 0, 0, -(right + left) / (right - left);
     0, 2 / (top - bottom), 0, -(top + bottom) / (top - bottom);
     0, 0, -2 / (zFar - zNear), -(zFar + zNear) / (zFar - zNear);
     0, 0, 0, 1]

/-- External library (GLM): `glm::perspective(fovy, aspect, zNear, zFar)`. -/
def perspective (ops : FloatOps) (fovy aspect zNear zFar : float) : mat4 :=
  let tanHalfFovy := ops.tan (fovy / 2)
  !![1 / (aspect * tanHalfFovy), 0, 0, 0;
     0, 1 / tanHalfFovy, 0, 0;
     0, 0, -(zFar + zNear) / (zFar - zNear), -(2 * zFar * zNear) / (zFar - zNear);
     0, 0, -1, 0]

end glm

/-! ## Uniform setters of the scene manager -/

def g_ModelName : String := "model"
def g_ColorValueName : String := "objectColor"
def g_TextureValueName : String := "objectTexture"
def g_UseTextureName : String := "bUseTexture"

/-- The local `modelView` of `SetTransformations`. -/
def SetTransformations.modelView (ops : FloatOps) (scaleXYZ : vec3)
    (XrotationDegrees YrotationDegrees ZrotationDegrees : float) (positionXYZ : vec3) :
    mat4 :=
  let scale := glm.scale scaleXYZ
  let rotationX := glm.rotate ops (glm.radians XrotationDegrees) ⟨1, 0, 0⟩
  let rotationY := glm.rotate ops (glm.radians YrotationDegrees) ⟨0, 1, 0⟩
  let rotationZ := glm.rotate ops (glm.radians ZrotationDegrees) ⟨0, 0, 1⟩
  let translation := glm.translate positionXYZ
  translation * rotationX * rotationY * rotationZ * scale

/-- The method `SceneManager::SetTransformations`. -/
def SetTransformations (ops : FloatOps) (s : SceneManager) (scaleXYZ : vec3)
    (XrotationDegrees YrotationDegrees ZrotationDegrees : float) (positionXYZ : vec3) :
    SceneManager :=
  let modelView := SetTransformations.modelView ops scaleXYZ
    XrotationDegrees YrotationDegrees ZrotationDegrees positionXYZ
  match s.m_pShaderManager with
  | some sm => { s with m_pShaderManager := some (sm.setMat4Value g_ModelName modelView) }
  | none => s

/-- The method `SceneManager::SetShaderColor`. -/
def SetShaderColor (s : SceneManager)
    (redColorValue greenColorValue blueColorValue alphaValue : float) : SceneManager :=
  let currentColor : vec4 := ⟨redColorValue, greenColorValue, blueColorValue, alphaValue⟩
  match s.m_pShaderManager with
  | some sm =>
    { s with
      m_pShaderManager :=
        some ((sm.setIntValue g_UseTextureName 0).setVec4Value g_ColorValueName
          currentColor) }
  | none => s

/-- The method `SceneManager::SetShaderTexture`. -/
def SetShaderTexture (s : SceneManager) (textureTag : String) : Option SceneManager :=
  match s.m_pShaderManager with
  | some sm =>
    let sm := sm.setIntValue g_UseTextureName 1
    match FindTextureSlot s textureTag with
    | some textureID =>
      some { s with
        m_pShaderManager := some (sm.setSampler2DValue g_TextureValueName textureID) }
    | none => none
  | none => some s

/-- The method `SceneManager::SetTextureUVScale`. -/
def SetTextureUVScale (s : SceneManager) (u v : float) : SceneManager :=
  match s.m_pShaderManager with
  | some sm => { s with m_pShaderManager := some (sm.setVec2Value "UVscale" ⟨u, v⟩) }
  | none => s

/-- The method `SceneManager::SetShaderMaterial`.  `uninit` is the indeterminate
content of the local `OBJECT_MATERIAL material` before `FindMaterial` fills it; the
five uploads go through `m_pShaderManager` without a null test. -/
def SetShaderMaterial (s : SceneManager) (materialTag : String)
    (uninit : OBJECT_MATERIAL) : Option SceneManager :=
  if s.m_objectMaterials.length > 0 then
    let material := uninit
    let (bReturn, material) := FindMaterial s materialTag material
    if bReturn = true then
      match s.m_pShaderManager with
      | some sm =>
        let sm := sm.setVec3Value "material.ambientColor" material.ambientColor
        let sm := sm.setFloatValue "material.ambientStrength" material.ambientStrength
        let sm := sm.setVec3Value "material.diffuseColor" material.diffuseColor
        let sm := sm.setVec3Value "material.specularColor" material.specularColor
        let sm := sm.setFloatValue "material.shininess" material.shininess
        some { s with m_pShaderManager := some sm }
      | none => none
    else
      some s
  else
    some s

/-! ## Scene preparation -/

/-- The body of the `for` loop of `PrepareScene` that programs light `i`. -/
def PrepareScene.light (lightDirections : Nat → vec3)
    (ambientColor diffuseColor specularColor : vec3)
    (focalStrength specularIntensity : float) (sm : ShaderManager) (i : Nat) :
    ShaderManager :=
  let lightName := "lightSources[" ++ toString i ++ "]"
  let sm := sm.setVec3Value (lightName ++ ".direction") (lightDirections i)
  let sm := sm.setVec3Value (lightName ++ ".ambientColor") ambientColor
  let sm := sm.setVec3Value (lightName ++ ".diffuseColor") diffuseColor
  let sm := sm.setVec3Value (lightName ++ ".specularColor") specularColor
  let sm := sm.setFloatValue (lightName ++ ".focalStrength") focalStrength
  sm.setFloatValue (lightName ++ ".specularIntensity") specularIntensity

/-- The method `SceneManager::PrepareScene`.  The results of the three
`CreateGLTexture` calls are discarded, as in the source. -/
def PrepareScene (ops : FloatOps) (stbi_load : String → Option StbImage)
    (s : SceneManager) : Option SceneManager := do
  let s := { s with m_basicMeshes := "LoadBoxMesh" :: s.m_basicMeshes }
  let s := { s with m_basicMeshes := "LoadCylinderMesh" :: s.m_basicMeshes }
  let s := { s with m_basicMeshes := "LoadConeMesh" :: s.m_basicMeshes }
  let s := { s with m_basicMeshes := "LoadPlaneMesh" :: s.m_basicMeshes }
  let (_, s) ← CreateGLTexture stbi_load s "textures/wood.png" "wood"
  let (_, s) ← CreateGLTexture stbi_load s "textures/metal.png" "metal"
  let (_, s) ← CreateGLTexture stbi_load s "textures/brick.png" "brick"
  let woodMaterial : OBJECT_MATERIAL :=
    { tag := "wood"
      ambientColor := ⟨0.5, 0.35, 0.2⟩
      ambientStrength := 0.5
      diffuseColor := ⟨0.6, 0.4, 0.3⟩
      specularColor := ⟨0.2, 0.2, 0.2⟩
      shininess := 8.0 }
  let s := { s with m_objectMaterials := s.m_objectMaterials ++ [woodMaterial] }
  let metalMaterial : OBJECT_MATERIAL :=
    { tag := "metal"
      ambientColor := ⟨0.3, 0.3, 0.3⟩
      ambientStrength := 0.5
      diffuseColor := ⟨0.6, 0.6, 0.6⟩
      specularColor := ⟨1.0, 1.0, 1.0⟩
      shininess := 32.0 }
  let s := { s with m_objectMaterials := s.m_objectMaterials ++ [metalMaterial] }
  match s.m_pShaderManager with
  | some sm =>
    let lightDirections : Nat → vec3 := fun i =>
      [glm.normalize ops ⟨-1.0, -1.0, -1.0⟩,
       glm.normalize ops ⟨1.0, -1.0, -1.0⟩,
       glm.normalize ops ⟨-1.0, -1.0, 1.0⟩,
       glm.normalize ops ⟨1.0, -1.0, 1.0⟩].getD i ⟨0, 0, 0⟩
    let ambientColor : vec3 := ⟨0.2, 0.2, 0.2⟩
    let diffuseColor : vec3 := ⟨0.6, 0.6, 0.6⟩
    let specularColor : vec3 := ⟨1.0, 1.0, 1.0⟩
    let focalStrength : float := 32.0
    let specularIntensity : float := 0.5
    let sm := (List.range 4).foldl
      (PrepareScene.light lightDirections ambientColor diffuseColor specularColor
        focalStrength specularIntensity) sm
    let sm := sm.setVec3Value "objectColor" ⟨1.0, 1.0, 1.0⟩
    let sm := sm.setVec3Value "viewPos" ⟨0.0, 0.0, 5.0⟩
    some { s with m_pShaderManager := some sm }
  | none => some s

/-! ## Scene rendering -/

/-- The value the uniform `name` holds in the shader manager of `s`, if there is a
shader manager and the uniform was ever uploaded. -/
def SceneManager.uniform (s : SceneManager) (name : String) : Option UniformValue :=
  s.m_pShaderManager.bind fun sm => sm.uniform name

/-- A call `m_pShaderManager->f(...)` made without a null test: through the null
pointer it is undefined behaviour. -/
def SceneManager.callShader (s : SceneManager) (f : ShaderManager → ShaderManager) :
    Option SceneManager :=
  match s.m_pShaderManager with
  | some sm => some { s with m_pShaderManager := some (f sm) }
  | none => none

/-- The call `m_basicMeshes->DrawBoxMesh()`. -/
def DrawBoxMesh (s : SceneManager) : SceneManager :=
  { s with m_basicMeshes := "DrawBoxMesh" :: s.m_basicMeshes }

/-- The call `m_basicMeshes->DrawCylinderMesh()`. -/
def DrawCylinderMesh (s : SceneManager) : SceneManager :=
  { s with m_basicMeshes := "DrawCylinderMesh" :: s.m_basicMeshes }

/-- The 24 uploads of the block "LIGHTING SETUP" of `RenderScene` (source lines
465-491), in source order. -/
def RenderScene.lighting (sm : ShaderManager) : ShaderManager :=
  let sm := sm.setVec3Value "lightSources[0].direction" ⟨-1.0, -1.0, -1.0⟩
  let sm := sm.setVec3Value "lightSources[0].ambientColor" ⟨0.3, 0.3, 0.3⟩
  let sm := sm.setVec3Value "lightSources[0].diffuseColor" ⟨0.8, 0.8, 0.8⟩
  let sm := sm.setVec3Value "lightSources[0].specularColor" ⟨1.0, 1.0, 1.0⟩
  let sm := sm.setFloatValue "lightSources[0].focalStrength" 32.0
  let sm := sm.setFloatValue "lightSources[0].specularIntensity" 0.5
  let sm := sm.setVec3Value "lightSources[1].direction" ⟨1.0, -1.0, 0.5⟩
  let sm := sm.setVec3Value "lightSources[1].ambientColor" ⟨0.2, 0.2, 0.2⟩
  let sm := sm.setVec3Value "lightSources[1].diffuseColor" ⟨0.5, 0.5, 0.5⟩
  let sm := sm.setVec3Value "lightSources[1].specularColor" ⟨0.7, 0.7, 0.7⟩
  let sm := sm.setFloatValue "lightSources[1].focalStrength" 16.0
  let sm := sm.setFloatValue "lightSources[1].specularIntensity" 0.3
  let sm := sm.setVec3Value "lightSources[2].direction" ⟨0.0, -0.5, 1.0⟩
  let sm := sm.setVec3Value "lightSources[2].ambientColor" ⟨0.15, 0.15, 0.15⟩
  let sm := sm.setVec3Value "lightSources[2].diffuseColor" ⟨0.4, 0.4, 0.4⟩
  let sm := sm.setVec3Value "lightSources[2].specularColor" ⟨0.6, 0.6, 0.6⟩
  let sm := sm.setFloatValue "lightSources[2].focalStrength" 8.0
  let sm := sm.setFloatValue "lightSources[2].specularIntensity" 0.25
  let sm := sm.setVec3Value "lightSources[3].direction" ⟨0.0, -1.0, 0.0⟩
  let sm := sm.setVec3Value "lightSources[3].ambientColor" ⟨0.1, 0.1, 0.1⟩
  let sm := sm.setVec3Value "lightSources[3].diffuseColor" ⟨0.3, 0.3, 0.3⟩
  let sm := sm.setVec3Value "lightSources[3].specularColor" ⟨0.4, 0.4, 0.4⟩
  let sm := sm.setFloatValue "lightSources[3].focalStrength" 4.0
  sm.setFloatValue "lightSources[3].specularIntensity" 0.2

/-- The range-`for` of the lambda `applyMaterial` of `RenderScene`, over the entries
still to visit: at the first entry with the tag it calls `SetShaderMaterial`, uploads
the entry's diffuse colour as "objectColor" and returns. -/
def RenderScene.applyMaterial.loop (s : SceneManager) (tag : String)
    (uninit : OBJECT_MATERIAL) : List OBJECT_MATERIAL → Option SceneManager
  | [] => some s
  | mat :: rest =>
    if mat.tag = tag then do
      let s ← SetShaderMaterial s tag uninit
      s.callShader fun sm => sm.setVec3Value "objectColor" mat.diffuseColor
    else
      RenderScene.applyMaterial.loop s tag uninit rest

/-- The lambda `applyMaterial` of `RenderScene`; `uninit` is the indeterminate content
of the local of the `SetShaderMaterial` call it may make. -/
def RenderScene.applyMaterial (s : SceneManager) (tag : String)
    (uninit : OBJECT_MATERIAL) : Option SceneManager :=
  RenderScene.applyMaterial.loop s tag uninit s.m_objectMaterials

/-- The block "DESK SURFACE" of `RenderScene`. -/
def RenderScene.deskSurface (ops : FloatOps) (s : SceneManager)
    (uninit : OBJECT_MATERIAL) : Option SceneManager := do
  let s := SetTransformations ops s ⟨10.0, 0.2, 6.0⟩ 0.0 0.0 0.0 ⟨0.0, -0.1, 0.0⟩
  let s ← SetShaderTexture s "wood"
  let s ← RenderScene.applyMaterial s "wood" uninit
  return DrawBoxMesh s

/-- The block "MONITOR" of `RenderScene`: screen, stand and base. -/
def RenderScene.monitor (ops : FloatOps) (s : SceneManager)
    (uninit : OBJECT_MATERIAL) : Option SceneManager := do
  let s := SetTransformations ops s ⟨2.0, 1.2, 0.1⟩ 0.0 0.0 0.0 ⟨0.0, 1.5, -1.5⟩
  let s ← SetShaderTexture s "metal"
  let s ← RenderScene.applyMaterial s "metal" uninit
  let s := DrawBoxMesh s
  let s := SetTransformations ops s ⟨0.2, 0.8, 0.2⟩ 0.0 0.0 0.0 ⟨0.0, 0.8, -1.5⟩
  let s := DrawBoxMesh s
  let s := SetTransformations ops s ⟨1.0, 0.1, 0.5⟩ 0.0 0.0 0.0 ⟨0.0, 0.35, -1.5⟩
  return DrawBoxMesh s

/-- The block "LAMP" of `RenderScene`; it sets neither texture nor material. -/
def RenderScene.lamp (ops : FloatOps) (s : SceneManager) : SceneManager :=
  let s := SetTransformations ops s ⟨0.6, 0.1, 0.6⟩ 0.0 0.0 0.0 ⟨-3.0, 0.05, -1.5⟩
  let s := DrawBoxMesh s
  let s := SetTransformations ops s ⟨0.1, 1.0, 0.1⟩ 0.0 0.0 0.0 ⟨-3.0, 0.6, -1.5⟩
  let s := DrawBoxMesh s
  let s := SetTransformations ops s ⟨0.4, 0.2, 0.6⟩ (-45.0) 0.0 0.0 ⟨-3.0, 1.3, -1.3⟩
  DrawBoxMesh s

/-- The block "COFFEE MUG" of `RenderScene`. -/
def RenderScene.coffeeMug (ops : FloatOps) (s : SceneManager)
    (uninit : OBJECT_MATERIAL) : Option SceneManager := do
  let s := SetTransformations ops s ⟨0.3, 0.4, 0.3⟩ 0.0 0.0 0.0 ⟨2.5, 0.2, -1.5⟩
  let s ← SetShaderTexture s "brick"
  let s ← RenderScene.applyMaterial s "metal" uninit
  let s := DrawCylinderMesh s
  let s := SetTransformations ops s ⟨0.05, 0.2, 0.3⟩ 0.0 0.0 0.0 ⟨2.8, 0.2, -1.5⟩
  return DrawCylinderMesh s

/-- The block "NOTEBOOK" of `RenderScene`. -/
def RenderScene.notebook (ops : FloatOps) (s : SceneManager)
    (uninit : OBJECT_MATERIAL) : Option SceneManager := do
  let s := SetTransformations ops s ⟨1.0, 0.05, 1.5⟩ 0.0 0.0 0.0 ⟨-1.5, 0.05, -1.5⟩
  let s ← SetShaderTexture s "wood"
  let s ← RenderScene.applyMaterial s "wood" uninit
  return DrawBoxMesh s

/-- The block "PEN" of `RenderScene`; "objectColor" is uploaded through
`m_pShaderManager` without a null test. -/
def RenderScene.pen (ops : FloatOps) (s : SceneManager) : Option SceneManager := do
  let s := SetTransformations ops s ⟨0.05, 0.05, 0.8⟩ 0.0 0.0 0.0 ⟨-1.5, 0.08, -1.5⟩
  let s ← s.callShader fun sm => sm.setVec3Value "objectColor" ⟨0.1, 0.1, 0.1⟩
  return DrawCylinderMesh s

/-- The block "WALL BACKDROP" of `RenderScene`. -/
def RenderScene.wallBackdrop (ops : FloatOps) (s : SceneManager)
    (uninit : OBJECT_MATERIAL) : Option SceneManager := do
  let s := SetTransformations ops s ⟨10.0, 5.0, 0.2⟩ 0.0 0.0 0.0 ⟨0.0, 2.5, -4.0⟩
  let s ← SetShaderTexture s "brick"
  let s ← RenderScene.applyMaterial s "brick" uninit
  return DrawBoxMesh s

/-- The block "FLOOR" of `RenderScene`. -/
def RenderScene.floor (ops : FloatOps) (s : SceneManager)
    (uninit : OBJECT_MATERIAL) : Option SceneManager := do
  let s := SetTransformations ops s ⟨20.0, 0.1, 20.0⟩ 0.0 0.0 0.0 ⟨0.0, -2.0, 0.0⟩
  let s ← SetShaderTexture s "wood"
  let s ← RenderScene.applyMaterial s "wood" uninit
  return DrawBoxMesh s

/-- The block "CEILING" of `RenderScene`. -/
def RenderScene.ceiling (ops : FloatOps) (s : SceneManager)
    (uninit : OBJECT_MATERIAL) : Option SceneManager := do
  let s := SetTransformations ops s ⟨20.0, 0.1, 20.0⟩ 0.0 0.0 0.0 ⟨0.0, 7.0, 0.0⟩
  let s ← SetShaderTexture s "metal"
  let s ← RenderScene.applyMaterial s "metal" uninit
  return DrawBoxMesh s

/-- The method `SceneManager::RenderScene`, block by block in source order.  The first
statement already goes through `m_pShaderManager` without a null test.  `uninit i` is
the indeterminate content of the local `material` in the `i`-th `applyMaterial` call. -/
def RenderScene (ops : FloatOps) (s : SceneManager) (uninit : Nat → OBJECT_MATERIAL) :
    Option SceneManager := do
  let s ← s.callShader RenderScene.lighting
  let s ← RenderScene.deskSurface ops s (uninit 0)
  let s ← RenderScene.monitor ops s (uninit 1)
  let s := RenderScene.lamp ops s
  let s ← RenderScene.coffeeMug ops s (uninit 2)
  let s ← RenderScene.notebook ops s (uninit 3)
  let s ← RenderScene.pen ops s
  let s ← RenderScene.wallBackdrop ops s (uninit 4)
  let s ← RenderScene.floor ops s (uninit 5)
  RenderScene.ceiling ops s (uninit 6)

/-- The 24 light uniforms and the constants the block "LIGHTING SETUP" gives them
(source lines 465-491), as a table in source order. -/
def RenderScene.lightConstants : List (String × UniformValue) :=
  [("lightSources[0].direction", UniformValue.vec3 ⟨-1.0, -1.0, -1.0⟩),
   ("lightSources[0].ambientColor", UniformValue.vec3 ⟨0.3, 0.3, 0.3⟩),
   ("lightSources[0].diffuseColor", UniformValue.vec3 ⟨0.8, 0.8, 0.8⟩),
   ("lightSources[0].specularColor", UniformValue.vec3 ⟨1.0, 1.0, 1.0⟩),
   ("lightSources[0].focalStrength", UniformValue.float 32.0),
   ("lightSources[0].specularIntensity", UniformValue.float 0.5),
   ("lightSources[1].direction", UniformValue.vec3 ⟨1.0, -1.0, 0.5⟩),
   ("lightSources[1].ambientColor", UniformValue.vec3 ⟨0.2, 0.2, 0.2⟩),
   ("lightSources[1].diffuseColor", UniformValue.vec3 ⟨0.5, 0.5, 0.5⟩),
   ("lightSources[1].specularColor", UniformValue.vec3 ⟨0.7, 0.7, 0.7⟩),
   ("lightSources[1].focalStrength", UniformValue.float 16.0),
   ("lightSources[1].specularIntensity", UniformValue.float 0.3),
   ("lightSources[2].direction", UniformValue.vec3 ⟨0.0, -0.5, 1.0⟩),
   ("lightSources[2].ambientColor", UniformValue.vec3 ⟨0.15, 0.15, 0.15⟩),
   ("lightSources[2].diffuseColor", UniformValue.vec3 ⟨0.4, 0.4, 0.4⟩),
   ("lightSources[2].specularColor", UniformValue.vec3 ⟨0.6, 0.6, 0.6⟩),
   ("lightSources[2].focalStrength", UniformValue.float 8.0),
   ("lightSources[2].specularIntensity", UniformValue.float 0.25),
   ("lightSources[3].direction", UniformValue.vec3 ⟨0.0, -1.0, 0.0⟩),
   ("lightSources[3].ambientColor", UniformValue.vec3 ⟨0.1, 0.1, 0.1⟩),
   ("lightSources[3].diffuseColor", UniformValue.vec3 ⟨0.3, 0.3, 0.3⟩),
   ("lightSources[3].specularColor", UniformValue.vec3 ⟨0.4, 0.4, 0.4⟩),
   ("lightSources[3].focalStrength", UniformValue.float 4.0),
   ("lightSources[3].specularIntensity", UniformValue.float 0.2)]

/-- The names of the uniforms the draw section of `RenderScene` uploads to. -/
def RenderScene.drawNames : List String :=
  ["model", "bUseTexture", "objectTexture", "objectColor", "material.ambientColor",
    "material.ambientStrength", "material.diffuseColor", "material.specularColor",
    "material.shininess"]

/-! ## Narrowing to binary32 -/

/-- Rounding of a rational to the nearest integer, ties to the even one. -/
def roundTiesEven (q : ℚ) : Int :=
  if q - ⌊q⌋ < 1 / 2 then ⌊q⌋
  else if 1 / 2 < q - ⌊q⌋ then ⌊q⌋ + 1
  else if ⌊q⌋ % 2 = 0 then ⌊q⌋
  else ⌊q⌋ + 1

/-- The largest finite binary32 value, `FLT_MAX`. -/
def FLT_MAX : ℚ := (2 ^ 24 - 1) * 2 ^ 104

/-- The `float` a real quantity becomes, in a cast `(float)x` of a `double` or as the
result of a `float` operation: the nearest binary32 value (24 significant bits, least
exponent -126, ties to even).  Beyond `FLT_MAX` there is no finite value and C++
leaves the behaviour undefined: `none`. -/
def toBinary32 (q : ℚ) : Option float :=
  if q = 0 then some 0
  else
    let e : Int := max (Int.log 2 |q|) (-126)
    let ulp : ℚ := 2 ^ (e - 23)
    let r : ℚ := (roundTiesEven (q / ulp) : ℚ) * ulp
    if |r| ≤ FLT_MAX then some r else none

/-! ## View manager -/

def WINDOW_WIDTH : Int := 1000
def WINDOW_HEIGHT : Int := 800
def g_ViewName : String := "view"
def g_ProjectionName : String := "projection"

/-- The argument type of `Camera::ProcessKeyboard`. -/
inductive Camera_Movement where
  | FORWARD
  | BACKWARD
  | LEFT
  | RIGHT
deriving DecidableEq, Repr

/-- The `Camera` object: the four public members ViewManager.cpp reads or writes,
and `other`, everything else the class keeps (camera.h is not among the sources). -/
structure Camera (C : Type) where
  Position : vec3
  Front : vec3
  Up : vec3
  Zoom : float
  other : C

/-- The member functions of `Camera` that ViewManager.cpp calls; their bodies are in
camera.h, so they are parameters of the embedding.  `default` is `Camera()`. -/
structure CameraMethods (C : Type) where
  default : Camera C
  ProcessKeyboard : Camera C → Camera_Movement → float → Camera C
  ProcessMouseMovement : Camera C → float → float → Camera C
  GetViewMatrix : Camera C → mat4

/-- The answers of `glfwGetKey(m_pWindow, KEY) == GLFW_PRESS` during one call of
`ProcessKeyboardEvents`. -/
structure KeyState where
  escape : Bool
  w : Bool
  s : Bool
  a : Bool
  d : Bool
  p : Bool
deriving DecidableEq, Repr

/-- The state ViewManager.cpp works on while a `ViewManager` object is alive: its
member `m_pShaderManager`, the close flag of its window, and the variables of the
anonymous namespace.  `g_pCamera` is set by the constructor and cleared only by the
destructor, so it is a camera, never null, here. -/
structure ViewManager (C : Type) where
  m_pShaderManager : Option ShaderManager
  windowShouldClose : Bool
  g_pCamera : Camera C
  gLastX : float
  gLastY : float
  gFirstMouse : Bool
  gDeltaTime : float
  gLastFrame : float
  bOrthographicProjection : Bool

/-- The constructor `ViewManager::ViewManager`, run on the initial values of the
variables of the anonymous namespace. -/
def ViewManager.create {C : Type} (cam : CameraMethods C)
    (pShaderManager : Option ShaderManager) : ViewManager C :=
  { m_pShaderManager := pShaderManager
    windowShouldClose := false
    g_pCamera :=
      { cam.default with
        Position := ⟨0.0, 5.0, 12.0⟩
        Front := ⟨0.0, -0.5, -2.0⟩
        Up := ⟨0.0, 1.0, 0.0⟩
        Zoom := 80.0 }
    gLastX := (WINDOW_WIDTH : float) / 2.0
    gLastY := (WINDOW_HEIGHT : float) / 2.0
    gFirstMouse := true
    gDeltaTime := 0.0
    gLastFrame := 0.0
    bOrthographicProjection := false }

/-- The constructor `ViewManager::ViewManager` run in a process that already has the
state `v`: it sets the members and a new camera and leaves the other variables of the
anonymous namespace, `gFirstMouse` included, as they are. -/
def ViewManager.construct {C : Type} (cam : CameraMethods C)
    (pShaderManager : Option ShaderManager) (v : ViewManager C) : ViewManager C :=
  { v with
    m_pShaderManager := pShaderManager
    windowShouldClose := false
    g_pCamera :=
      { cam.default with
        Position := ⟨0.0, 5.0, 12.0⟩
        Front := ⟨0.0, -0.5, -2.0⟩
        Up := ⟨0.0, 1.0, 0.0⟩
        Zoom := 80.0 } }

/-- The callback `ViewManager::Mouse_Position_Callback`.  The arguments are `double`;
`x` and `y` are the casts `(float)xMousePos` and `(float)yMousePos`, and the two
offsets are `float` subtractions. -/
def Mouse_Position_Callback {C : Type} (cam : CameraMethods C) (v : ViewManager C)
    (xMousePos yMousePos : ℚ) : Option (ViewManager C) := do
  let x ← toBinary32 xMousePos
  let y ← toBinary32 yMousePos
  let v :=
    if v.gFirstMouse then
      { v with gLastX := x, gLastY := y, gFirstMouse := false }
    else v
  let xoffset ← toBinary32 (x - v.gLastX)
  let yoffset ← toBinary32 (v.gLastY - y)
  let v := { v with gLastX := x, gLastY := y }
  return { v with g_pCamera := cam.ProcessMouseMovement v.g_pCamera xoffset yoffset }

/-- The method `ViewManager::ProcessKeyboardEvents`. -/
def ProcessKeyboardEvents {C : Type} (cam : CameraMethods C) (v : ViewManager C)
    (keys : KeyState) : ViewManager C :=
  let v := if keys.escape then { v with windowShouldClose := true } else v
  let v :=
    if keys.w then
      { v with g_pCamera :=
          cam.ProcessKeyboard v.g_pCamera Camera_Movement.FORWARD v.gDeltaTime }
    else v
  let v :=
    if keys.s then
      { v with g_pCamera :=
          cam.ProcessKeyboard v.g_pCamera Camera_Movement.BACKWARD v.gDeltaTime }
    else v
  let v :=
    if keys.a then
      { v with g_pCamera :=
          cam.ProcessKeyboard v.g_pCamera Camera_Movement.LEFT v.gDeltaTime }
    else v
  let v :=
    if keys.d then
      { v with g_pCamera :=
          cam.ProcessKeyboard v.g_pCamera Camera_Movement.RIGHT v.gDeltaTime }
    else v
  if keys.p then
    { v with bOrthographicProjection := !v.bOrthographicProjection }
  else v

/-- The local `projection` of `PrepareSceneView`, computed after the keyboard has
been processed. -/
def PrepareSceneView.projection {C : Type} (ops : FloatOps) (v : ViewManager C) : mat4 :=
  if v.bOrthographicProjection then
    let orthoSize : float := 10.0
    glm.ortho (-orthoSize) orthoSize
      (-orthoSize * ((WINDOW_HEIGHT : float) / (WINDOW_WIDTH : float)))
      (orthoSize * ((WINDOW_HEIGHT : float) / (WINDOW_WIDTH : float)))
      0.1 100.0
  else
    glm.perspective ops (glm.radians v.g_pCamera.Zoom)
      ((WINDOW_WIDTH : float) / (WINDOW_HEIGHT : float)) 0.1 100.0

/-- The method `ViewManager::PrepareSceneView`; `currentFrame` is the value of
`glfwGetTime()` and `keys` the keyboard as the call finds it. -/
def PrepareSceneView {C : Type} (ops : FloatOps) (cam : CameraMethods C)
    (v : ViewManager C) (currentFrame : float) (keys : KeyState) : ViewManager C :=
  let v := { v with gDeltaTime := currentFrame - v.gLastFrame }
  let v := { v with gLastFrame := currentFrame }
  let v := ProcessKeyboardEvents cam v keys
  let view := cam.GetViewMatrix v.g_pCamera
  let projection := PrepareSceneView.projection ops v
  match v.m_pShaderManager with
  | some sm =>
    let sm := sm.setMat4Value g_ViewName view
    let sm := sm.setMat4Value g_ProjectionName projection
    let sm := sm.setVec3Value "viewPosition" v.g_pCamera.Position
    { v with m_pShaderManager := some sm }
  | none => v

/-- Any number of `PrepareSceneView` calls in a row, one per frame, each with the
clock reading and the keyboard of its frame. -/
def runFrames {C : Type} (ops : FloatOps) (cam : CameraMethods C) (v : ViewManager C)
    (frames : List (float × KeyState)) : ViewManager C :=
  frames.foldl (fun v frame => PrepareSceneView ops cam v frame.1 frame.2) v

/-! ## The transform of the specification

"Composes `Translation * RotationX * RotationY * RotationZ * Scale` (rotation order X
then Y then Z, each a pure-axis rotation by degrees converted to radians)": these
definitions follow that sentence, not the code. -/

namespace Spec

/-- The homogeneous coordinates of the point `p`. -/
def point (p : vec3) : Fin 4 → float :=
  ![p.x, p.y, p.z, 1]

/-- The translation matrix by `t`. -/
def Translation (t : vec3) : mat4 :=
  !![1, 0, 0, t.x;
     0, 1, 0, t.y;
     0, 0, 1, t.z;
     0, 0, 0, 1]

/-- The rotation matrix about the x axis by `degrees`. -/
def RotationX (ops : FloatOps) (degrees : float) : mat4 :=
  !![1, 0, 0, 0;
     0, ops.cos (glm.radians degrees), -ops.sin (glm.radians degrees), 0;
     0, ops.sin (glm.radians degrees), ops.cos (glm.radians degrees), 0;
     0, 0, 0, 1]

/-- The rotation matrix about the y axis by `degrees`. -/
def RotationY (ops : FloatOps) (degrees : float) : mat4 :=
  !![ops.cos (glm.radians degrees), 0, ops.sin (glm.radians degrees), 0;
     0, 1, 0, 0;
     -ops.sin (glm.radians degrees), 0, ops.cos (glm.radians degrees), 0;
     0, 0, 0, 1]

/-- The rotation matrix about the z axis by `degrees`. -/
def RotationZ (ops : FloatOps) (degrees : float) : mat4 :=
  !![ops.cos (glm.radians degrees), -ops.sin (glm.radians degrees), 0, 0;
     ops.sin (glm.radians degrees), ops.cos (glm.radians degrees), 0, 0;
     0, 0, 1, 0;
     0, 0, 0, 1]

/-- The scaling matrix by `s`. -/
def Scale (s : vec3) : mat4 :=
  !![s.x, 0, 0, 0;
     0, s.y, 0, 0;
     0, 0, s.z, 0;
     0, 0, 0, 1]

/-- The model matrix of the specification. -/
def Model (ops : FloatOps) (s : vec3) (rx ry rz : float) (t : vec3) : mat4 :=
  Translation t * RotationX ops rx * RotationY ops ry * RotationZ ops rz * Scale s

/-- The point `s * p`, component by component. -/
def scalePoint (s p : vec3) : vec3 :=
  ⟨s.x * p.x, s.y * p.y, s.z * p.z⟩

/-- The point `p` rotated about the x axis. -/
def rotateX (ops : FloatOps) (degrees : float) (p : vec3) : vec3 :=
  ⟨p.x,
    ops.cos (glm.radians degrees) * p.y - ops.sin (glm.radians degrees) * p.z,
    ops.sin (glm.radians degrees) * p.y + ops.cos (glm.radians degrees) * p.z⟩

/-- The point `p` rotated about the y axis. -/
def rotateY (ops : FloatOps) (degrees : float) (p : vec3) : vec3 :=
  ⟨ops.cos (glm.radians degrees) * p.x + ops.sin (glm.radians degrees) * p.z,
    p.y,
    -ops.sin (glm.radians degrees) * p.x + ops.cos (glm.radians degrees) * p.z⟩

/-- The point `p` rotated about the z axis. -/
def rotateZ (ops : FloatOps) (degrees : float) (p : vec3) : vec3 :=
  ⟨ops.cos (glm.radians degrees) * p.x - ops.sin (glm.radians degrees) * p.y,
    ops.sin (glm.radians degrees) * p.x + ops.cos (glm.radians degrees) * p.y,
    p.z⟩

/-- The point `t + p`. -/
def translatePoint (t p : vec3) : vec3 :=
  ⟨t.x + p.x, t.y + p.y, t.z + p.z⟩

end Spec

/-! ## Concrete states used to instantiate the theorems -/

/-- An unused slot of the texture array. -/
def emptySlot : TEXTURE_INFO := ⟨0, ""⟩

/-- A 16-slot registry with three loaded textures, the tag "metal" being loaded twice. -/
def exampleRegistry : SceneManager :=
  { m_pShaderManager := none
    m_basicMeshes := []
    m_textureIDs :=
      [⟨1, "wood"⟩, ⟨2, "metal"⟩, ⟨5, "metal"⟩] ++ List.replicate 13 emptySlot
    m_loadedTextures := 3
    m_objectMaterials := []
    glNames := [6, 7, 8] }

/-- A 16-slot registry all of whose slots are in use. -/
def fullRegistry : SceneManager :=
  { m_pShaderManager := none
    m_basicMeshes := []
    m_textureIDs := List.replicate 16 ⟨9, "wood"⟩
    m_loadedTextures := 16
    m_objectMaterials := []
    glNames := [17] }

/-- A decoder for which every file is a 64 x 64 image with `channels` channels. -/
def constDecoder (channels : Int) : String → Option StbImage :=
  fun _ => some ⟨64, 64, channels⟩

/-- The material "wood" of `PrepareScene`. -/
def woodMaterial : OBJECT_MATERIAL :=
  { tag := "wood"
    ambientColor := ⟨0.5, 0.35, 0.2⟩
    ambientStrength := 0.5
    diffuseColor := ⟨0.6, 0.4, 0.3⟩
    specularColor := ⟨0.2, 0.2, 0.2⟩
    shininess := 8.0 }

/-- The material "metal" of `PrepareScene`. -/
def metalMaterial : OBJECT_MATERIAL :=
  { tag := "metal"
    ambientColor := ⟨0.3, 0.3, 0.3⟩
    ambientStrength := 0.5
    diffuseColor := ⟨0.6, 0.6, 0.6⟩
    specularColor := ⟨1.0, 1.0, 1.0⟩
    shininess := 32.0 }

/-- A second material tagged "wood", different from the first in every value. -/
def darkWoodMaterial : OBJECT_MATERIAL :=
  { tag := "wood"
    ambientColor := ⟨0.1, 0.1, 0.1⟩
    ambientStrength := 0.9
    diffuseColor := ⟨0.2, 0.1, 0.1⟩
    specularColor := ⟨0.0, 0.0, 0.0⟩
    shininess := 1.0 }

/-- Some content of a local `OBJECT_MATERIAL` that was never assigned. -/
def staleMaterial : OBJECT_MATERIAL :=
  { tag := ""
    ambientColor := ⟨7, 7, 7⟩
    ambientStrength := 7
    diffuseColor := ⟨7, 7, 7⟩
    specularColor := ⟨7, 7, 7⟩
    shininess := 7 }

/-- A shader whose material uniforms hold the values of "wood". -/
def woodShader : ShaderManager :=
  ⟨[("material.shininess", UniformValue.float 8.0),
    ("material.specularColor", UniformValue.vec3 ⟨0.2, 0.2, 0.2⟩),
    ("material.diffuseColor", UniformValue.vec3 ⟨0.6, 0.4, 0.3⟩),
    ("material.ambientStrength", UniformValue.float 0.5),
    ("material.ambientColor", UniformValue.vec3 ⟨0.5, 0.35, 0.2⟩)]⟩

/-- A scene manager with a shader and the material table "wood", "metal", "wood". -/
def exampleScene : SceneManager :=
  { exampleRegistry with
    m_pShaderManager := some woodShader
    m_objectMaterials := [woodMaterial, metalMaterial, darkWoodMaterial] }

/-- The example scene manager without a shader manager (null `m_pShaderManager`). -/
def nullScene : SceneManager :=
  { exampleScene with m_pShaderManager := none }

/-- A scene manager as constructed: 16 unused slots, no texture loaded, no material,
a shader manager without uploads. -/
def freshScene : SceneManager :=
  { m_pShaderManager := some ⟨[]⟩
    m_basicMeshes := []
    m_textureIDs := List.replicate 16 emptySlot
    m_loadedTextures := 0
    m_objectMaterials := []
    glNames := [1, 2, 3] }

/-- Library functions that are exact at the angle 0 and take every other angle for a
quarter turn (`cos` 0, `sin` 1); `inversesqrt` is exact at 1. -/
def quarterTurnOps : FloatOps :=
  { cos := fun a => if a = 0 then 1 else 0
    sin := fun a => if a = 0 then 0 else 1
    tan := fun a => if a = 0 then 0 else 1
    inversesqrt := fun _ => 1 }

/-- A camera class without private state whose methods leave the camera alone. -/
def stillCamera : CameraMethods Unit :=
  { default := ⟨⟨0, 0, 0⟩, ⟨0, 0, -1⟩, ⟨0, 1, 0⟩, 45, ()⟩
    ProcessKeyboard := fun c _ _ => c
    ProcessMouseMovement := fun c _ _ => c
    GetViewMatrix := fun _ => 1 }

/-- A camera class that keeps, newest first, the offsets `ProcessMouseMovement`
received. -/
def recordingCamera : CameraMethods (List (float × float)) :=
  { default := ⟨⟨0, 0, 0⟩, ⟨0, 0, -1⟩, ⟨0, 1, 0⟩, 45, []⟩
    ProcessKeyboard := fun c _ _ => c
    ProcessMouseMovement := fun c xoffset yoffset =>
      { c with other := (xoffset, yoffset) :: c.other }
    GetViewMatrix := fun _ => 1 }

/-- A keyboard with no key down. -/
def noKeys : KeyState := ⟨false, false, false, false, false, false⟩

/-- A keyboard with only P down. -/
def onlyP : KeyState := ⟨false, false, false, false, false, true⟩

/-! ## Texture lookups -/

theorem FindTextureSlot_loop_found (s : SceneManager) (tag : String) (index : Nat)
    (textureSlot : Int) :
    FindTextureSlot.loop s tag index true textureSlot = some textureSlot := by
  rw [FindTextureSlot.loop]
  simp

theorem FindTextureID_loop_found (s : SceneManager) (tag : String) (index : Nat)
    (textureID : Int) :
    FindTextureID.loop s tag index true textureID = some textureID := by
  rw [FindTextureID.loop]
  simp

/-- Scanning from `index` with no matching tag left below the count runs the slot loop
to the end and leaves the local untouched. -/
theorem FindTextureSlot_loop_absent (s : SceneManager) (tag : String)
    (hcap : s.m_loadedTextures ≤ (s.m_textureIDs.length : Int))
    (habs : ∀ (k : Nat) (e : TEXTURE_INFO), (k : Int) < s.m_loadedTextures →
      s.m_textureIDs[k]? = some e → e.tag ≠ tag)
    (n : Nat) : ∀ (index : Nat) (textureSlot : Int),
      (s.m_loadedTextures - index).toNat = n →
      FindTextureSlot.loop s tag index false textureSlot = some textureSlot := by
  induction n with
  | zero =>
    intro index textureSlot hn
    rw [FindTextureSlot.loop]
    have : ¬ ((index : Int) < s.m_loadedTextures) := by omega
    simp [this]
  | succ n ih =>
    intro index textureSlot hn
    rw [FindTextureSlot.loop]
    have hlt : (index : Int) < s.m_loadedTextures := by omega
    have hlen : index < s.m_textureIDs.length := by omega
    have hget : s.m_textureIDs[index]? = some (s.m_textureIDs[index]) :=
      List.getElem?_eq_getElem hlen
    have hne := habs index _ hlt hget
    simp only [hlt, and_self, ↓reduceDIte, hget, hne, ↓reduceIte]
    exact ih (index + 1) textureSlot (by omega)

theorem FindTextureID_loop_absent (s : SceneManager) (tag : String)
    (hcap : s.m_loadedTextures ≤ (s.m_textureIDs.length : Int))
    (habs : ∀ (k : Nat) (e : TEXTURE_INFO), (k : Int) < s.m_loadedTextures →
      s.m_textureIDs[k]? = some e → e.tag ≠ tag)
    (n : Nat) : ∀ (index : Nat) (textureID : Int),
      (s.m_loadedTextures - index).toNat = n →
      FindTextureID.loop s tag index false textureID = some textureID := by
  induction n with
  | zero =>
    intro index textureID hn
    rw [FindTextureID.loop]
    have : ¬ ((index : Int) < s.m_loadedTextures) := by omega
    simp [this]
  | succ n ih =>
    intro index textureID hn
    rw [FindTextureID.loop]
    have hlt : (index : Int) < s.m_loadedTextures := by omega
    have hlen : index < s.m_textureIDs.length := by omega
    have hget : s.m_textureIDs[index]? = some (s.m_textureIDs[index]) :=
      List.getElem?_eq_getElem hlen
    have hne := habs index _ hlt hget
    simp only [hlt, and_self, ↓reduceDIte, hget, hne, ↓reduceIte]
    exact ih (index + 1) textureID (by omega)

/-- Scanning from `index` reaches the first matching slot `k` and stops there. -/
theorem FindTextureSlot_loop_first (s : SceneManager) (tag : String)
    (hcap : s.m_loadedTextures ≤ (s.m_textureIDs.length : Int))
    (k : Nat) (e : TEXTURE_INFO) (hk : (k : Int) < s.m_loadedTextures)
    (he : s.m_textureIDs[k]? = some e) (htag : e.tag = tag)
    (hmin : ∀ (j : Nat) (e' : TEXTURE_INFO), j < k →
      s.m_textureIDs[j]? = some e' → e'.tag ≠ tag)
    (n : Nat) : ∀ (index : Nat) (textureSlot : Int), k - index = n → index ≤ k →
      FindTextureSlot.loop s tag index false textureSlot = some (k : Int) := by
  induction n with
  | zero =>
    intro index textureSlot hn hle
    have hik : index = k := by omega
    subst hik
    rw [FindTextureSlot.loop]
    simp only [hk, and_self, ↓reduceDIte, he, htag, ↓reduceIte]
    exact FindTextureSlot_loop_found s tag index index
  | succ n ih =>
    intro index textureSlot hn hle
    rw [FindTextureSlot.loop]
    have hlt : (index : Int) < s.m_loadedTextures := by omega
    have hlen : index < s.m_textureIDs.length := by omega
    have hget : s.m_textureIDs[index]? = some (s.m_textureIDs[index]) :=
      List.getElem?_eq_getElem hlen
    have hne := hmin index _ (by omega) hget
    simp only [hlt, and_self, ↓reduceDIte, hget, hne, ↓reduceIte]
    exact ih (index + 1) textureSlot (by omega) (by omega)

theorem FindTextureID_loop_first (s : SceneManager) (tag : String)
    (hcap : s.m_loadedTextures ≤ (s.m_textureIDs.length : Int))
    (k : Nat) (e : TEXTURE_INFO) (hk : (k : Int) < s.m_loadedTextures)
    (he : s.m_textureIDs[k]? = some e) (htag : e.tag = tag)
    (hmin : ∀ (j : Nat) (e' : TEXTURE_INFO), j < k →
      s.m_textureIDs[j]? = some e' → e'.tag ≠ tag)
    (n : Nat) : ∀ (index : Nat) (textureID : Int), k - index = n → index ≤ k →
      FindTextureID.loop s tag index false textureID = some e.ID := by
  induction n with
  | zero =>
    intro index textureID hn hle
    have hik : index = k := by omega
    subst hik
    rw [FindTextureID.loop]
    simp only [hk, and_self, ↓reduceDIte, he, htag, ↓reduceIte]
    exact FindTextureID_loop_found s tag index e.ID
  | succ n ih =>
    intro index textureID hn hle
    rw [FindTextureID.loop]
    have hlt : (index : Int) < s.m_loadedTextures := by omega
    have hlen : index < s.m_textureIDs.length := by omega
    have hget : s.m_textureIDs[index]? = some (s.m_textureIDs[index]) :=
      List.getElem?_eq_getElem hlen
    have hne := hmin index _ (by omega) hget
    simp only [hlt, and_self, ↓reduceDIte, hget, hne, ↓reduceIte]
    exact ih (index + 1) textureID (by omega) (by omega)

/-- C1. On a registry whose loaded count lies within the slot array: when no slot
below the count carries the tag (the empty registry included), `FindTextureSlot` and
`FindTextureID` both return -1; when slot `k` is the first one below the count that
carries the tag, `FindTextureSlot` returns `k` and `FindTextureID` returns the id
stored in slot `k`, whatever later slots carry. -/
theorem FindTexture_first_match (s : SceneManager) (tag : String)
    (hcap : s.m_loadedTextures ≤ (s.m_textureIDs.length : Int)) :
    ((∀ (k : Nat) (e : TEXTURE_INFO), (k : Int) < s.m_loadedTextures →
        s.m_textureIDs[k]? = some e → e.tag ≠ tag) →
      FindTextureSlot s tag = some (-1) ∧ FindTextureID s tag = some (-1)) ∧
    (∀ (k : Nat) (e : TEXTURE_INFO), (k : Int) < s.m_loadedTextures →
      s.m_textureIDs[k]? = some e → e.tag = tag →
      (∀ (j : Nat) (e' : TEXTURE_INFO), j < k →
        s.m_textureIDs[j]? = some e' → e'.tag ≠ tag) →
      FindTextureSlot s tag = some (k : Int) ∧ FindTextureID s tag = some e.ID) := by
  refine ⟨fun habs => ⟨?_, ?_⟩, fun k e hk he htag hmin => ⟨?_, ?_⟩⟩
  · exact FindTextureSlot_loop_absent s tag hcap habs _ 0 (-1) rfl
  · exact FindTextureID_loop_absent s tag hcap habs _ 0 (-1) rfl
  · exact FindTextureSlot_loop_first s tag hcap k e hk he htag hmin _ 0 (-1) rfl
      (Nat.zero_le k)
  · exact FindTextureID_loop_first s tag hcap k e hk he htag hmin _ 0 (-1) rfl
      (Nat.zero_le k)

/-- C1 at the example registry: "metal" sits in slots 1 and 2, the lookups answer with
slot 1 and its id; "glass" is absent. -/
theorem FindTexture_first_match_witness :
    exampleRegistry.m_loadedTextures ≤ (exampleRegistry.m_textureIDs.length : Int) ∧
    (FindTextureSlot exampleRegistry "metal" = some 1 ∧
      FindTextureID exampleRegistry "metal" = some 2) ∧
    (FindTextureSlot exampleRegistry "glass" = some (-1) ∧
      FindTextureID exampleRegistry "glass" = some (-1)) := by
  have hcap : exampleRegistry.m_loadedTextures ≤
      (exampleRegistry.m_textureIDs.length : Int) := by decide
  refine ⟨hcap, ?_, ?_⟩
  · refine (FindTexture_first_match exampleRegistry "metal" hcap).2 1 ⟨2, "metal"⟩
      (by decide) (by decide) (by decide) ?_
    intro j e' hj he'
    have hj0 : j = 0 := by omega
    subst hj0
    have : e' = ⟨1, "wood"⟩ := by
      simpa [exampleRegistry] using he'.symm
    subst this
    decide
  · refine (FindTexture_first_match exampleRegistry "glass" hcap).1 ?_
    intro k e hk he
    have hk3 : k < 3 := by
      have : exampleRegistry.m_loadedTextures = 3 := rfl
      omega
    interval_cases k <;> simp [exampleRegistry] at he <;> subst he <;> decide

/-! ## Texture loading -/

theorem glGenTextures_members (s : SceneManager) (textureID : Nat) :
    (glGenTextures s textureID).2.m_loadedTextures = s.m_loadedTextures ∧
    (glGenTextures s textureID).2.m_textureIDs = s.m_textureIDs ∧
    (glGenTextures s textureID).2.m_objectMaterials = s.m_objectMaterials ∧
    (glGenTextures s textureID).2.m_pShaderManager = s.m_pShaderManager ∧
    (glGenTextures s textureID).2.m_basicMeshes = s.m_basicMeshes := by
  unfold glGenTextures
  cases s.glNames <;> simp

/-- A decodable RGB or RGBA image on a registry with a free slot: the call returns
`true`, writes the tag into slot `m_loadedTextures` and increments the count; the
other members stay as they were. -/
theorem CreateGLTexture_loaded (stbi_load : String → Option StbImage) (s : SceneManager)
    (filename tag : String) (image : StbImage) (himg : stbi_load filename = some image)
    (hch : image.colorChannels = 3 ∨ image.colorChannels = 4)
    (h0 : 0 ≤ s.m_loadedTextures)
    (hfree : s.m_loadedTextures < (s.m_textureIDs.length : Int)) :
    ∃ (s' : SceneManager) (textureID : Nat),
      CreateGLTexture stbi_load s filename tag = some (true, s') ∧
      s'.m_loadedTextures = s.m_loadedTextures + 1 ∧
      s'.m_textureIDs =
        s.m_textureIDs.set s.m_loadedTextures.toNat ⟨intOfGLuint textureID, tag⟩ ∧
      s'.m_objectMaterials = s.m_objectMaterials ∧
      s'.m_pShaderManager = s.m_pShaderManager := by
  obtain ⟨g1, g2, g3, g4, _⟩ := glGenTextures_members s 0
  have hreg : CreateGLTexture.register (glGenTextures s 0).2 (glGenTextures s 0).1 tag =
      some (true,
        { (glGenTextures s 0).2 with
          m_textureIDs := s.m_textureIDs.set s.m_loadedTextures.toNat
            ⟨intOfGLuint (glGenTextures s 0).1, tag⟩
          m_loadedTextures := s.m_loadedTextures + 1 }) := by
    unfold CreateGLTexture.register
    rw [g1, g2]
    simp [h0, hfree]
  refine ⟨{ (glGenTextures s 0).2 with
      m_textureIDs := s.m_textureIDs.set s.m_loadedTextures.toNat
        ⟨intOfGLuint (glGenTextures s 0).1, tag⟩
      m_loadedTextures := s.m_loadedTextures + 1 },
    (glGenTextures s 0).1, ?_, rfl, rfl, g3, g4⟩
  unfold CreateGLTexture
  rw [himg]
  rcases hch with h3 | h4
  · simp only [h3, ↓reduceIte]
    exact hreg
  · simp only [h4]
    exact hreg

/-- An image with a channel count other than 3 and 4, or a file that does not decode:
the call returns `false` and no member of the registry changes. -/
theorem CreateGLTexture_rejected (stbi_load : String → Option StbImage)
    (s : SceneManager) (filename tag : String)
    (hrej : ∀ image, stbi_load filename = some image →
      image.colorChannels ≠ 3 ∧ image.colorChannels ≠ 4) :
    ∃ s' : SceneManager,
      CreateGLTexture stbi_load s filename tag = some (false, s') ∧
      s'.m_loadedTextures = s.m_loadedTextures ∧
      s'.m_textureIDs = s.m_textureIDs := by
  obtain ⟨g1, g2, _, _, _⟩ := glGenTextures_members s 0
  unfold CreateGLTexture
  cases himg : stbi_load filename with
  | none => exact ⟨s, rfl, rfl, rfl⟩
  | some image =>
    obtain ⟨h3, h4⟩ := hrej image himg
    refine ⟨(glGenTextures s 0).2, ?_, g1, g2⟩
    simp [h3, h4]

/-- C2, as the code has it.  With the loaded count inside the slot array
(`0 ≤ count < capacity`), an image that decodes with 3 or 4 channels makes
`CreateGLTexture` return `true` and raises the count by exactly 1; in every registry
state, an image that decodes with another channel count makes it return `false` and
leaves the count unchanged. -/
theorem CreateGLTexture_count (stbi_load : String → Option StbImage) (s : SceneManager)
    (filename tag : String) (image : StbImage)
    (himg : stbi_load filename = some image) :
    ((image.colorChannels = 3 ∨ image.colorChannels = 4) →
      0 ≤ s.m_loadedTextures → s.m_loadedTextures < (s.m_textureIDs.length : Int) →
      ∃ s' : SceneManager,
        CreateGLTexture stbi_load s filename tag = some (true, s') ∧
        s'.m_loadedTextures = s.m_loadedTextures + 1) ∧
    (image.colorChannels ≠ 3 → image.colorChannels ≠ 4 →
      ∃ s' : SceneManager,
        CreateGLTexture stbi_load s filename tag = some (false, s') ∧
        s'.m_loadedTextures = s.m_loadedTextures) := by
  constructor
  · intro hch h0 hfree
    obtain ⟨s', _, hres, hcount, _⟩ :=
      CreateGLTexture_loaded stbi_load s filename tag image himg hch h0 hfree
    exact ⟨s', hres, hcount⟩
  · intro h3 h4
    obtain ⟨s', hres, hcount, _⟩ :=
      CreateGLTexture_rejected stbi_load s filename tag (fun img himg' => by
        rw [himg] at himg'
        cases himg'
        exact ⟨h3, h4⟩)
    exact ⟨s', hres, hcount⟩

/-- C2 at the example registry (3 of 16 slots used): an RGBA file is registered and the
count becomes 4; a single-channel file is refused and the count stays 3. -/
theorem CreateGLTexture_count_witness :
    (∃ s' : SceneManager,
      CreateGLTexture (constDecoder 4) exampleRegistry "textures/brick.png" "brick" =
        some (true, s') ∧
      s'.m_loadedTextures = exampleRegistry.m_loadedTextures + 1) ∧
    (∃ s' : SceneManager,
      CreateGLTexture (constDecoder 1) exampleRegistry "textures/brick.png" "brick" =
        some (false, s') ∧
      s'.m_loadedTextures = exampleRegistry.m_loadedTextures) :=
  ⟨(CreateGLTexture_count (constDecoder 4) exampleRegistry "textures/brick.png" "brick"
      ⟨64, 64, 4⟩ rfl).1 (by decide) (by decide) (by decide),
   (CreateGLTexture_count (constDecoder 1) exampleRegistry "textures/brick.png" "brick"
      ⟨64, 64, 1⟩ rfl).2 (by decide) (by decide)⟩

/-- C2 as stated fails on a full registry: all 16 slots are in use, the file decodes
as an RGB image, and the call writes slot 16 of a 16-slot array (no result) instead of
returning `true` with the count raised to 17. -/
theorem CreateGLTexture_full_registry :
    constDecoder 3 "textures/wood.png" = some ⟨64, 64, 3⟩ ∧
    fullRegistry.m_loadedTextures = 16 ∧ fullRegistry.m_textureIDs.length = 16 ∧
    CreateGLTexture (constDecoder 3) fullRegistry "textures/wood.png" "wood" = none ∧
    ¬ ∃ s' : SceneManager,
      CreateGLTexture (constDecoder 3) fullRegistry "textures/wood.png" "wood" =
        some (true, s') ∧
      s'.m_loadedTextures = fullRegistry.m_loadedTextures + 1 := by
  have hnone :
      CreateGLTexture (constDecoder 3) fullRegistry "textures/wood.png" "wood" = none := by
    simp [CreateGLTexture, constDecoder, glGenTextures, CreateGLTexture.register,
      fullRegistry]
  refine ⟨rfl, rfl, by simp [fullRegistry], hnone, ?_⟩
  rintro ⟨s', hs', _⟩
  rw [hnone] at hs'
  cases hs'

/-! ## Material lookup -/

theorem FindMaterial_loop_found (s : SceneManager) (tag : String) (index : Nat)
    (material : OBJECT_MATERIAL) :
    FindMaterial.loop s tag index true material = (true, material) := by
  rw [FindMaterial.loop]
  simp

/-- With no matching tag at or after `index`, the loop ends with `bFound` still false
and the output parameter untouched. -/
theorem FindMaterial_loop_absent (s : SceneManager) (tag : String)
    (habs : ∀ (k : Nat) (e : OBJECT_MATERIAL),
      s.m_objectMaterials[k]? = some e → e.tag ≠ tag)
    (n : Nat) : ∀ (index : Nat) (material : OBJECT_MATERIAL),
      s.m_objectMaterials.length - index = n →
      FindMaterial.loop s tag index false material = (false, material) := by
  induction n with
  | zero =>
    intro index material hn
    rw [FindMaterial.loop]
    have : ¬ (index < s.m_objectMaterials.length) := by omega
    simp [this]
  | succ n ih =>
    intro index material hn
    rw [FindMaterial.loop]
    have hlt : index < s.m_objectMaterials.length := by omega
    have hne := habs index _ (List.getElem?_eq_getElem hlt)
    simp only [hlt, and_self, ↓reduceDIte, List.get_eq_getElem, hne, ↓reduceIte]
    exact ih (index + 1) material (by omega)

/-- The loop stops at the first entry `k` carrying the tag and copies its five
values into the output parameter. -/
theorem FindMaterial_loop_first (s : SceneManager) (tag : String)
    (k : Nat) (e : OBJECT_MATERIAL)
    (he : s.m_objectMaterials[k]? = some e) (htag : e.tag = tag)
    (hmin : ∀ (j : Nat) (e' : OBJECT_MATERIAL), j < k →
      s.m_objectMaterials[j]? = some e' → e'.tag ≠ tag)
    (n : Nat) : ∀ (index : Nat) (material : OBJECT_MATERIAL), k - index = n → index ≤ k →
      FindMaterial.loop s tag index false material =
        (true,
          { material with
            ambientColor := e.ambientColor
            ambientStrength := e.ambientStrength
            diffuseColor := e.diffuseColor
            specularColor := e.specularColor
            shininess := e.shininess }) := by
  have hk : k < s.m_objectMaterials.length := by
    rcases Nat.lt_or_ge k s.m_objectMaterials.length with h | h
    · exact h
    · rw [List.getElem?_eq_none h] at he
      cases he
  have hek : s.m_objectMaterials[k] = e := by
    rw [List.getElem?_eq_getElem hk] at he
    exact Option.some.inj he
  induction n with
  | zero =>
    intro index material hn hle
    have hik : index = k := by omega
    subst hik
    rw [FindMaterial.loop]
    simp only [hk, and_self, ↓reduceDIte, List.get_eq_getElem, hek, htag, ↓reduceIte]
    exact FindMaterial_loop_found s tag index _
  | succ n ih =>
    intro index material hn hle
    rw [FindMaterial.loop]
    have hlt : index < s.m_objectMaterials.length := by omega
    have hne := hmin index _ (by omega) (List.getElem?_eq_getElem hlt)
    simp only [hlt, and_self, ↓reduceDIte, List.get_eq_getElem, hne, ↓reduceIte]
    exact ih (index + 1) material (by omega) (by omega)

/-- On an empty table `FindMaterial` returns `false`; on a non-empty table it returns
`true` for every tag. -/
theorem FindMaterial_result (s : SceneManager) (tag : String)
    (material : OBJECT_MATERIAL) :
    (FindMaterial s tag material).1 = decide (s.m_objectMaterials ≠ []) := by
  unfold FindMaterial
  cases hm : s.m_objectMaterials with
  | nil => simp
  | cons e rest => simp

/-- C3 on the code.  On the empty table `FindMaterial` returns `false`.  On the table
"wood", "metal", "wood" the tag "brick" matches no entry: the loop ends with `bFound`
false and the output untouched, yet `FindMaterial` returns `true`. -/
theorem FindMaterial_unmatched_tag :
    FindMaterial exampleRegistry "brick" staleMaterial = (false, staleMaterial) ∧
    (∀ e ∈ exampleScene.m_objectMaterials, e.tag ≠ "brick") ∧
    FindMaterial.loop exampleScene "brick" 0 false staleMaterial =
      (false, staleMaterial) ∧
    FindMaterial exampleScene "brick" staleMaterial = (true, staleMaterial) := by
  have habs : ∀ (k : Nat) (e : OBJECT_MATERIAL),
      exampleScene.m_objectMaterials[k]? = some e → e.tag ≠ "brick" := by
    intro k e he
    have hmem := List.getElem?_mem he
    simp only [exampleScene, List.mem_cons, List.mem_singleton, List.not_mem_nil,
      or_false] at hmem
    rcases hmem with h | h | h <;> subst h <;> decide
  have hloop := FindMaterial_loop_absent exampleScene "brick" habs _ 0 staleMaterial rfl
  refine ⟨by simp [FindMaterial, exampleRegistry], by decide, hloop, ?_⟩
  unfold FindMaterial
  rw [hloop]
  simp [exampleScene]

/-- C4. When entry `k` is the first entry of the material table carrying the tag,
`FindMaterial` returns `true` and the output holds the entry's `ambientColor`,
`ambientStrength`, `diffuseColor`, `specularColor` and `shininess` (its `tag` member is
not written); the result is a function of entry `k` alone, so no later entry with the
same tag has any influence. -/
theorem FindMaterial_first_match (s : SceneManager) (tag : String)
    (material : OBJECT_MATERIAL) (k : Nat) (e : OBJECT_MATERIAL)
    (he : s.m_objectMaterials[k]? = some e) (htag : e.tag = tag)
    (hmin : ∀ (j : Nat) (e' : OBJECT_MATERIAL), j < k →
      s.m_objectMaterials[j]? = some e' → e'.tag ≠ tag) :
    FindMaterial s tag material =
      (true,
        { material with
          ambientColor := e.ambientColor
          ambientStrength := e.ambientStrength
          diffuseColor := e.diffuseColor
          specularColor := e.specularColor
          shininess := e.shininess }) := by
  have hne : s.m_objectMaterials.length ≠ 0 := by
    intro h0
    rw [List.getElem?_eq_none (by omega)] at he
    cases he
  unfold FindMaterial
  rw [FindMaterial_loop_first s tag k e he htag hmin _ 0 material rfl (Nat.zero_le k)]
  simp [hne]

/-- C4 on the table "wood", "metal", "wood": the lookup of "wood" yields the values of
entry 0 and nothing of entry 2. -/
theorem FindMaterial_first_match_witness :
    exampleScene.m_objectMaterials[0]? = some woodMaterial ∧
    exampleScene.m_objectMaterials[2]? = some darkWoodMaterial ∧
    woodMaterial.tag = "wood" ∧ darkWoodMaterial.tag = "wood" ∧
    FindMaterial exampleScene "wood" staleMaterial =
      (true, { woodMaterial with tag := staleMaterial.tag }) :=
  ⟨rfl, rfl, rfl, rfl,
    FindMaterial_first_match exampleScene "wood" staleMaterial 0 woodMaterial rfl rfl
      (fun j _ hj => absurd hj (Nat.not_lt_zero j))⟩

/-! ## Material upload -/

/-- With a shader manager and a non-empty material table, `SetShaderMaterial` uploads
the five members of whatever `FindMaterial` left in the local `material`. -/
theorem SetShaderMaterial_nonempty (s : SceneManager) (materialTag : String)
    (uninit : OBJECT_MATERIAL) (sm : ShaderManager)
    (hsm : s.m_pShaderManager = some sm) (hne : s.m_objectMaterials ≠ []) :
    SetShaderMaterial s materialTag uninit =
      some { s with
        m_pShaderManager := some
          ⟨("material.shininess",
              UniformValue.float (FindMaterial s materialTag uninit).2.shininess) ::
            ("material.specularColor",
              UniformValue.vec3 (FindMaterial s materialTag uninit).2.specularColor) ::
            ("material.diffuseColor",
              UniformValue.vec3 (FindMaterial s materialTag uninit).2.diffuseColor) ::
            ("material.ambientStrength",
              UniformValue.float (FindMaterial s materialTag uninit).2.ambientStrength) ::
            ("material.ambientColor",
              UniformValue.vec3 (FindMaterial s materialTag uninit).2.ambientColor) ::
            sm.uploads⟩ } := by
  have hlen : s.m_objectMaterials.length > 0 := List.length_pos.mpr hne
  have hres := FindMaterial_result s materialTag uninit
  unfold SetShaderMaterial
  simp only [hlen, ↓reduceIte]
  rcases hfm : FindMaterial s materialTag uninit with ⟨b, m⟩
  rw [hfm] at hres
  simp only [hne, ne_eq, not_false_eq_true, decide_True] at hres
  simp [hres, hsm, ShaderManager.setVec3Value, ShaderManager.setFloatValue]

/-- With an empty material table `SetShaderMaterial` changes nothing. -/
theorem SetShaderMaterial_empty (s : SceneManager) (materialTag : String)
    (uninit : OBJECT_MATERIAL) (hempty : s.m_objectMaterials = []) :
    SetShaderMaterial s materialTag uninit = some s := by
  simp [SetShaderMaterial, hempty]

/-- C5 on the code.  The table "wood", "metal", "wood" has no entry tagged "brick" and
the shader holds the material uniforms of "wood".  `SetShaderMaterial("brick")` is not a
no-op: for every content `m` of its unassigned local it makes five uploads, after which
the five `material.*` uniforms hold the members of `m`; with the content
`staleMaterial`, `material.shininess` goes from 8 to 7. -/
theorem SetShaderMaterial_unmatched_tag :
    (∀ e ∈ exampleScene.m_objectMaterials, e.tag ≠ "brick") ∧
    exampleScene.m_pShaderManager = some woodShader ∧
    woodShader.uniform "material.shininess" = some (UniformValue.float 8) ∧
    (∀ m : OBJECT_MATERIAL,
      SetShaderMaterial exampleScene "brick" m =
        some { exampleScene with
          m_pShaderManager := some
            ⟨("material.shininess", UniformValue.float m.shininess) ::
              ("material.specularColor", UniformValue.vec3 m.specularColor) ::
              ("material.diffuseColor", UniformValue.vec3 m.diffuseColor) ::
              ("material.ambientStrength", UniformValue.float m.ambientStrength) ::
              ("material.ambientColor", UniformValue.vec3 m.ambientColor) ::
              woodShader.uploads⟩ }) ∧
    ((SetShaderMaterial exampleScene "brick" staleMaterial).bind
        fun s' => s'.m_pShaderManager.bind fun sm => sm.uniform "material.shininess") =
      some (UniformValue.float 7) := by
  have habs : ∀ (k : Nat) (e : OBJECT_MATERIAL),
      exampleScene.m_objectMaterials[k]? = some e → e.tag ≠ "brick" := by
    intro k e he
    have hmem := List.getElem?_mem he
    simp only [exampleScene, List.mem_cons, List.mem_singleton, List.not_mem_nil,
      or_false] at hmem
    rcases hmem with h | h | h <;> subst h <;> decide
  have hfind : ∀ m : OBJECT_MATERIAL, FindMaterial exampleScene "brick" m = (true, m) := by
    intro m
    unfold FindMaterial
    rw [FindMaterial_loop_absent exampleScene "brick" habs _ 0 m rfl]
    simp [exampleScene]
  have hupload : ∀ m : OBJECT_MATERIAL,
      SetShaderMaterial exampleScene "brick" m =
        some { exampleScene with
          m_pShaderManager := some
            ⟨("material.shininess", UniformValue.float m.shininess) ::
              ("material.specularColor", UniformValue.vec3 m.specularColor) ::
              ("material.diffuseColor", UniformValue.vec3 m.diffuseColor) ::
              ("material.ambientStrength", UniformValue.float m.ambientStrength) ::
              ("material.ambientColor", UniformValue.vec3 m.ambientColor) ::
              woodShader.uploads⟩ } := by
    intro m
    rw [SetShaderMaterial_nonempty exampleScene "brick" m woodShader rfl
      (by simp [exampleScene]), hfind m]
  refine ⟨by decide, rfl, ?_, hupload, ?_⟩
  · simp only [ShaderManager.uniform, woodShader, List.lookup_cons, beq_self_eq_true,
      Option.some.injEq, UniformValue.float.injEq]
    norm_num
  · rw [hupload staleMaterial]
    simp [ShaderManager.uniform, List.lookup, staleMaterial]

/-! ## Model matrix -/

theorem glm_translate_eq (t : vec3) : glm.translate t = Spec.Translation t := rfl

theorem glm_scale_eq (s : vec3) : glm.scale s = Spec.Scale s := rfl

theorem glm_rotate_x (ops : FloatOps) (hisq : ops.inversesqrt 1 = 1) (degrees : float) :
    glm.rotate ops (glm.radians degrees) ⟨1, 0, 0⟩ = Spec.RotationX ops degrees := by
  ext i j
  fin_cases i <;> fin_cases j <;>
    (simp [glm.rotate, glm.normalize, glm.dot, hisq, Spec.RotationX]; try rfl)

theorem glm_rotate_y (ops : FloatOps) (hisq : ops.inversesqrt 1 = 1) (degrees : float) :
    glm.rotate ops (glm.radians degrees) ⟨0, 1, 0⟩ = Spec.RotationY ops degrees := by
  ext i j
  fin_cases i <;> fin_cases j <;>
    (simp [glm.rotate, glm.normalize, glm.dot, hisq, Spec.RotationY]; try rfl)

theorem glm_rotate_z (ops : FloatOps) (hisq : ops.inversesqrt 1 = 1) (degrees : float) :
    glm.rotate ops (glm.radians degrees) ⟨0, 0, 1⟩ = Spec.RotationZ ops degrees := by
  ext i j
  fin_cases i <;> fin_cases j <;>
    (simp [glm.rotate, glm.normalize, glm.dot, hisq, Spec.RotationZ]; try rfl)

theorem SetTransformations.modelView_eq (ops : FloatOps) (hisq : ops.inversesqrt 1 = 1)
    (scaleXYZ : vec3) (rx ry rz : float) (positionXYZ : vec3) :
    SetTransformations.modelView ops scaleXYZ rx ry rz positionXYZ =
      Spec.Model ops scaleXYZ rx ry rz positionXYZ := by
  simp only [SetTransformations.modelView, Spec.Model, glm_translate_eq, glm_scale_eq,
    glm_rotate_x ops hisq, glm_rotate_y ops hisq, glm_rotate_z ops hisq]

theorem Spec.Scale_mulVec (s p : vec3) :
    (Spec.Scale s).mulVec (Spec.point p) = Spec.point (Spec.scalePoint s p) := by
  ext i
  fin_cases i <;>
    simp [Spec.Scale, Spec.point, Spec.scalePoint, Matrix.mulVec, Matrix.dotProduct,
      Fin.sum_univ_four]

theorem Spec.RotationX_mulVec (ops : FloatOps) (degrees : float) (p : vec3) :
    (Spec.RotationX ops degrees).mulVec (Spec.point p) =
      Spec.point (Spec.rotateX ops degrees p) := by
  ext i
  fin_cases i <;>
    (simp [Spec.RotationX, Spec.point, Spec.rotateX, Matrix.mulVec, Matrix.dotProduct,
      Fin.sum_univ_four]; try ring)

theorem Spec.RotationY_mulVec (ops : FloatOps) (degrees : float) (p : vec3) :
    (Spec.RotationY ops degrees).mulVec (Spec.point p) =
      Spec.point (Spec.rotateY ops degrees p) := by
  ext i
  fin_cases i <;>
    simp [Spec.RotationY, Spec.point, Spec.rotateY, Matrix.mulVec, Matrix.dotProduct,
      Fin.sum_univ_four]

theorem Spec.RotationZ_mulVec (ops : FloatOps) (degrees : float) (p : vec3) :
    (Spec.RotationZ ops degrees).mulVec (Spec.point p) =
      Spec.point (Spec.rotateZ ops degrees p) := by
  ext i
  fin_cases i <;>
    (simp [Spec.RotationZ, Spec.point, Spec.rotateZ, Matrix.mulVec, Matrix.dotProduct,
      Fin.sum_univ_four]; try ring)

theorem Spec.Translation_mulVec (t p : vec3) :
    (Spec.Translation t).mulVec (Spec.point p) =
      Spec.point (Spec.translatePoint t p) := by
  ext i
  fin_cases i <;>
    simp [Spec.Translation, Spec.point, Spec.translatePoint, Matrix.mulVec,
      Matrix.dotProduct, Fin.sum_univ_four] <;> ring

theorem Spec.Model_mulVec (ops : FloatOps) (s : vec3) (rx ry rz : float) (t p : vec3) :
    (Spec.Model ops s rx ry rz t).mulVec (Spec.point p) =
      Spec.point (Spec.translatePoint t (Spec.rotateX ops rx (Spec.rotateY ops ry
        (Spec.rotateZ ops rz (Spec.scalePoint s p))))) := by
  unfold Spec.Model
  rw [← Matrix.mulVec_mulVec, ← Matrix.mulVec_mulVec, ← Matrix.mulVec_mulVec,
    ← Matrix.mulVec_mulVec, Spec.Scale_mulVec, Spec.RotationZ_mulVec,
    Spec.RotationY_mulVec, Spec.RotationX_mulVec, Spec.Translation_mulVec]

theorem Spec.Model_origin (ops : FloatOps) (s : vec3) (rx ry rz : float) (t : vec3) :
    (Spec.Model ops s rx ry rz t).mulVec (Spec.point ⟨0, 0, 0⟩) = Spec.point t := by
  rw [Spec.Model_mulVec]
  simp [Spec.point, Spec.translatePoint, Spec.rotateX, Spec.rotateY, Spec.rotateZ,
    Spec.scalePoint]

/-- C6.  With a shader manager present (and the library's `inversesqrt(1)` being 1, so
that normalizing a coordinate axis returns it), `SetTransformations` makes exactly one
upload, of the matrix `Translation(t) * RotationX(rx) * RotationY(ry) * RotationZ(rz) *
Scale(s)` to the uniform "model"; that matrix maps every point `p` to
`t + Rx(Ry(Rz(s * p)))` and the origin to `t`.  Arithmetic is exact. -/
theorem SetTransformations_model (ops : FloatOps) (hisq : ops.inversesqrt 1 = 1)
    (s : SceneManager) (sm : ShaderManager) (hsm : s.m_pShaderManager = some sm)
    (scaleXYZ : vec3) (rx ry rz : float) (positionXYZ : vec3) :
    SetTransformations ops s scaleXYZ rx ry rz positionXYZ =
      { s with
        m_pShaderManager := some
          ⟨("model", UniformValue.mat4 (Spec.Model ops scaleXYZ rx ry rz positionXYZ)) ::
            sm.uploads⟩ } ∧
    ((SetTransformations ops s scaleXYZ rx ry rz positionXYZ).m_pShaderManager.bind
        fun sm' => sm'.uniform "model") =
      some (UniformValue.mat4 (Spec.Model ops scaleXYZ rx ry rz positionXYZ)) ∧
    (∀ p : vec3,
      (Spec.Model ops scaleXYZ rx ry rz positionXYZ).mulVec (Spec.point p) =
        Spec.point (Spec.translatePoint positionXYZ (Spec.rotateX ops rx
          (Spec.rotateY ops ry (Spec.rotateZ ops rz (Spec.scalePoint scaleXYZ p)))))) ∧
    (Spec.Model ops scaleXYZ rx ry rz positionXYZ).mulVec (Spec.point ⟨0, 0, 0⟩) =
      Spec.point positionXYZ := by
  have hset : SetTransformations ops s scaleXYZ rx ry rz positionXYZ =
      { s with
        m_pShaderManager := some
          ⟨("model", UniformValue.mat4 (Spec.Model ops scaleXYZ rx ry rz positionXYZ)) ::
            sm.uploads⟩ } := by
    unfold SetTransformations
    simp only [hsm, SetTransformations.modelView_eq ops hisq]
    rfl
  refine ⟨hset, ?_, Spec.Model_mulVec ops scaleXYZ rx ry rz positionXYZ,
    Spec.Model_origin ops scaleXYZ rx ry rz positionXYZ⟩
  rw [hset]
  simp [ShaderManager.uniform, List.lookup]

/-- C6 at the input of the specification: scale (2,1,1), rotation (0,90,0), position
(1,0,0).  The uniform "model" receives the composed matrix, the origin goes to
(1,0,0) and the point (1,0,0) to (1,0,-2). -/
theorem SetTransformations_model_witness :
    quarterTurnOps.inversesqrt 1 = 1 ∧
    exampleScene.m_pShaderManager = some woodShader ∧
    ((SetTransformations quarterTurnOps exampleScene ⟨2, 1, 1⟩ 0 90 0
        ⟨1, 0, 0⟩).m_pShaderManager.bind fun sm' => sm'.uniform "model") =
      some (UniformValue.mat4 (Spec.Model quarterTurnOps ⟨2, 1, 1⟩ 0 90 0 ⟨1, 0, 0⟩)) ∧
    (Spec.Model quarterTurnOps ⟨2, 1, 1⟩ 0 90 0 ⟨1, 0, 0⟩).mulVec (Spec.point ⟨0, 0, 0⟩) =
      Spec.point ⟨1, 0, 0⟩ ∧
    (Spec.Model quarterTurnOps ⟨2, 1, 1⟩ 0 90 0 ⟨1, 0, 0⟩).mulVec (Spec.point ⟨1, 0, 0⟩) =
      Spec.point ⟨1, 0, -2⟩ := by
  have h := SetTransformations_model quarterTurnOps rfl exampleScene woodShader rfl
    ⟨2, 1, 1⟩ 0 90 0 ⟨1, 0, 0⟩
  refine ⟨rfl, rfl, h.2.1, h.2.2.2, ?_⟩
  rw [h.2.2.1 ⟨1, 0, 0⟩]
  have h90 : glm.radians 90 ≠ 0 := by
    unfold glm.radians
    norm_num
  simp [Spec.translatePoint, Spec.rotateX, Spec.rotateY, Spec.rotateZ, Spec.scalePoint,
    quarterTurnOps, glm.radians, h90]
  norm_num

/-! ## View manager -/

theorem ProcessKeyboardEvents_members {C : Type} (cam : CameraMethods C)
    (v : ViewManager C) (keys : KeyState) :
    (ProcessKeyboardEvents cam v keys).gFirstMouse = v.gFirstMouse ∧
    (ProcessKeyboardEvents cam v keys).m_pShaderManager = v.m_pShaderManager ∧
    (ProcessKeyboardEvents cam v keys).bOrthographicProjection =
      (if keys.p then !v.bOrthographicProjection else v.bOrthographicProjection) := by
  unfold ProcessKeyboardEvents
  cases keys.escape <;> cases keys.w <;> cases keys.s <;> cases keys.a <;>
    cases keys.d <;> cases keys.p <;> simp

theorem PrepareSceneView_gFirstMouse {C : Type} (ops : FloatOps) (cam : CameraMethods C)
    (v : ViewManager C) (currentFrame : float) (keys : KeyState) :
    (PrepareSceneView ops cam v currentFrame keys).gFirstMouse = v.gFirstMouse := by
  unfold PrepareSceneView
  simp only
  split <;> simp [(ProcessKeyboardEvents_members cam _ keys).1]

theorem runFrames_gFirstMouse {C : Type} (ops : FloatOps) (cam : CameraMethods C)
    (frames : List (float × KeyState)) : ∀ v : ViewManager C,
    (runFrames ops cam v frames).gFirstMouse = v.gFirstMouse := by
  induction frames with
  | nil => intro v; rfl
  | cons frame rest ih =>
    intro v
    simp only [runFrames, List.foldl_cons] at ih ⊢
    rw [ih, PrepareSceneView_gFirstMouse]

theorem roundTiesEven_eval (q : ℚ) (f : Int) (hlo : (f : ℚ) ≤ q) (hhi : q < f + 1) :
    roundTiesEven q =
      if q - f < 1 / 2 then f
      else if 1 / 2 < q - f then f + 1
      else if f % 2 = 0 then f
      else f + 1 := by
  have hf : ⌊q⌋ = f := Int.floor_eq_iff.mpr ⟨hlo, hhi⟩
  simp only [roundTiesEven, hf]

/-- The value of `toBinary32` at a non-zero `q` of the normal range, from the binade
`2^e ≤ |q| < 2^(e+1)` and the rounded significand `n`. -/
theorem toBinary32_eval (q : ℚ) (e n : Int) (hq : q ≠ 0)
    (hlo : (2 : ℚ) ^ e ≤ |q|) (hhi : |q| < (2 : ℚ) ^ (e + 1)) (he : -126 ≤ e)
    (hn : roundTiesEven (q / 2 ^ (e - 23)) = n) :
    toBinary32 q =
      if |(n : ℚ) * 2 ^ (e - 23)| ≤ FLT_MAX then some ((n : ℚ) * 2 ^ (e - 23))
      else none := by
  have hpos : (0 : ℚ) < |q| := abs_pos.mpr hq
  have hlog : Int.log 2 |q| = e := by
    apply le_antisymm
    · have := (Int.lt_zpow_iff_log_lt (R := ℚ) (b := 2) (by norm_num) hpos).mp
        (by exact_mod_cast hhi)
      omega
    · exact (Int.zpow_le_iff_le_log (R := ℚ) (b := 2) (by norm_num) hpos).mp
        (by exact_mod_cast hlo)
  simp only [toBinary32, hq, ↓reduceIte, hlog, max_eq_left he, hn]

theorem toBinary32_zero : toBinary32 0 = some 0 := by
  simp [toBinary32]

theorem toBinary32_two : toBinary32 2 = some 2 := by
  rw [toBinary32_eval 2 1 (2 ^ 23) (by norm_num) (by norm_num) (by norm_num)
    (by norm_num)]
  · norm_num [FLT_MAX]
  · rw [roundTiesEven_eval _ (2 ^ 23) (by norm_num) (by norm_num)]
    norm_num

/-- The double 16777217 = 2^24 + 1 lies halfway between two floats and narrows to the
even one, 16777216. -/
theorem toBinary32_16777217 : toBinary32 16777217 = some 16777216 := by
  rw [toBinary32_eval 16777217 24 8388608 (by norm_num) (by norm_num) (by norm_num)
    (by norm_num)]
  · norm_num [FLT_MAX]
  · rw [roundTiesEven_eval _ 8388608 (by norm_num) (by norm_num)]
    norm_num

theorem toBinary32_16777218 : toBinary32 16777218 = some 16777218 := by
  rw [toBinary32_eval 16777218 24 8388609 (by norm_num) (by norm_num) (by norm_num)
    (by norm_num)]
  · norm_num [FLT_MAX]
  · rw [roundTiesEven_eval _ 8388609 (by norm_num) (by norm_num)]
    norm_num

/-- The position 16777216.4 narrows to 16777216. -/
theorem toBinary32_16777216_4 : toBinary32 (83886082 / 5) = some 16777216 := by
  rw [toBinary32_eval (83886082 / 5) 24 8388608 (by norm_num)
    (by rw [abs_of_pos (by norm_num)]; norm_num)
    (by rw [abs_of_pos (by norm_num)]; norm_num) (by norm_num)]
  · norm_num [FLT_MAX]
  · rw [roundTiesEven_eval _ 8388608 (by norm_num) (by norm_num)]
    norm_num

/-- The position 16777216.6 narrows to 16777216. -/
theorem toBinary32_16777216_6 : toBinary32 (83886083 / 5) = some 16777216 := by
  rw [toBinary32_eval (83886083 / 5) 24 8388608 (by norm_num)
    (by rw [abs_of_pos (by norm_num)]; norm_num)
    (by rw [abs_of_pos (by norm_num)]; norm_num) (by norm_num)]
  · norm_num [FLT_MAX]
  · rw [roundTiesEven_eval _ 8388608 (by norm_num) (by norm_num)]
    norm_num

/-- The value 2^128 is beyond `FLT_MAX`: the cast has no finite result. -/
theorem toBinary32_overflow : toBinary32 (2 ^ 128) = none := by
  rw [toBinary32_eval (2 ^ 128) 128 (2 ^ 23) (by norm_num) (by norm_num) (by norm_num)
    (by norm_num)]
  · norm_num [FLT_MAX]
  · rw [roundTiesEven_eval _ (2 ^ 23) (by norm_num) (by norm_num)]
    norm_num

/-- On a state whose `gFirstMouse` is set and at a position in the range of `float`,
the callback seeds the last position from the narrowed cursor position and hands the
camera the offset (0, 0). -/
theorem Mouse_Position_Callback_first {C : Type} (cam : CameraMethods C)
    (v : ViewManager C) (hfirst : v.gFirstMouse = true) (x y a b : ℚ)
    (hx : toBinary32 x = some a) (hy : toBinary32 y = some b) :
    Mouse_Position_Callback cam v x y =
      some { v with
        gLastX := a
        gLastY := b
        gFirstMouse := false
        g_pCamera := cam.ProcessMouseMovement v.g_pCamera 0 0 } := by
  simp [Mouse_Position_Callback, hx, hy, hfirst, toBinary32_zero]

/-- On a state whose `gFirstMouse` is clear, the callback hands the camera the float
differences between the narrowed position and the last position, y inverted. -/
theorem Mouse_Position_Callback_next {C : Type} (cam : CameraMethods C)
    (v : ViewManager C) (hfirst : v.gFirstMouse = false) (x y a b dx dy : ℚ)
    (hx : toBinary32 x = some a) (hy : toBinary32 y = some b)
    (hdx : toBinary32 (a - v.gLastX) = some dx)
    (hdy : toBinary32 (v.gLastY - b) = some dy) :
    Mouse_Position_Callback cam v x y =
      some { v with
        gLastX := a
        gLastY := b
        g_pCamera := cam.ProcessMouseMovement v.g_pCamera dx dy } := by
  simp [Mouse_Position_Callback, hx, hy, hfirst, hdx, hdy]

/-- C7, as the code has it.  Let `gFirstMouse` be set, as it is after the creation of
the first controller of the process and any number of frames.  For every cursor
position `(x1, y1)` in the range of `float` the first `Mouse_Position_Callback` calls
`ProcessMouseMovement(0, 0)`.  The second callback `(x2, y2)` calls
`ProcessMouseMovement(dx, dy)` with `dx = (float)x2 - (float)x1` and
`dy = (float)y1 - (float)y2`, float subtractions of the positions narrowed to `float`;
when the positions and their differences are floats, that is `(x2 - x1, y1 - y2)`. -/
theorem Mouse_Position_Callback_offsets {C : Type} (cam : CameraMethods C)
    (v : ViewManager C) (hfirst : v.gFirstMouse = true) (x1 y1 a1 b1 : ℚ)
    (hx1 : toBinary32 x1 = some a1) (hy1 : toBinary32 y1 = some b1) :
    (∀ (ops : FloatOps) (pShaderManager : Option ShaderManager)
      (frames : List (float × KeyState)),
      (runFrames ops cam (ViewManager.create cam pShaderManager) frames).gFirstMouse =
        true) ∧
    ∃ v1 : ViewManager C,
      Mouse_Position_Callback cam v x1 y1 = some v1 ∧
      v1.g_pCamera = cam.ProcessMouseMovement v.g_pCamera 0 0 ∧
      ∀ (x2 y2 a2 b2 dx dy : ℚ),
        toBinary32 x2 = some a2 → toBinary32 y2 = some b2 →
        toBinary32 (a2 - a1) = some dx → toBinary32 (b1 - b2) = some dy →
        ∃ v2 : ViewManager C,
          Mouse_Position_Callback cam v1 x2 y2 = some v2 ∧
          v2.g_pCamera = cam.ProcessMouseMovement v1.g_pCamera dx dy ∧
          (a1 = x1 → a2 = x2 → toBinary32 (x2 - x1) = some (x2 - x1) →
            dx = x2 - x1) ∧
          (b1 = y1 → b2 = y2 → toBinary32 (y1 - y2) = some (y1 - y2) →
            dy = y1 - y2) := by
  refine ⟨fun ops pShaderManager frames => ?_, _,
    Mouse_Position_Callback_first cam v hfirst x1 y1 a1 b1 hx1 hy1, rfl, ?_⟩
  · rw [runFrames_gFirstMouse]
    rfl
  · intro x2 y2 a2 b2 dx dy hx2 hy2 hdx hdy
    refine ⟨_, Mouse_Position_Callback_next cam _ rfl x2 y2 a2 b2 dx dy hx2 hy2 hdx hdy,
      rfl, ?_, ?_⟩
    · intro h1 h2 hrep
      subst h1 h2
      rw [hrep] at hdx
      exact (Option.some.inj hdx).symm
    · intro h1 h2 hrep
      subst h1 h2
      rw [hrep] at hdy
      exact (Option.some.inj hdy).symm

/-- C7 on the controller as created, with a camera that records what it receives: the
callback at (0, 0) passes (0, 0) and the callback at (2, 0) that follows passes
(2, 0). -/
theorem Mouse_Position_Callback_offsets_witness :
    (ViewManager.create recordingCamera none).gFirstMouse = true ∧
    toBinary32 0 = some 0 ∧ toBinary32 2 = some 2 ∧ toBinary32 (2 - 0) = some 2 ∧
    ∃ v1 v2 : ViewManager (List (float × float)),
      Mouse_Position_Callback recordingCamera (ViewManager.create recordingCamera none)
        0 0 = some v1 ∧
      v1.g_pCamera.other = [(0, 0)] ∧
      Mouse_Position_Callback recordingCamera v1 2 0 = some v2 ∧
      v2.g_pCamera.other = [(2, 0), (0, 0)] := by
  have h20 : toBinary32 (2 - 0) = some 2 := by
    rw [sub_zero]
    exact toBinary32_two
  have h00 : toBinary32 (0 - 0) = some 0 := by
    rw [sub_zero]
    exact toBinary32_zero
  obtain ⟨_, v1, hv1, hc1, hnext⟩ := Mouse_Position_Callback_offsets recordingCamera
    (ViewManager.create recordingCamera none) rfl 0 0 0 0 toBinary32_zero toBinary32_zero
  obtain ⟨v2, hv2, hc2, _, _⟩ := hnext 2 0 2 0 2 0 toBinary32_two toBinary32_zero h20 h00
  refine ⟨rfl, toBinary32_zero, toBinary32_two, h20, v1, v2, hv1, ?_, hv2, ?_⟩
  · rw [hc1]
    rfl
  · rw [hc2, hc1]
    rfl

/-- C7 as stated fails on the code, in three ways, shown with a camera that records
the offsets it receives, newest first.  Narrowing: after the callbacks at
(16777217, 0) and (16777218, 0) the second offset is (2, 0), not (1, 0), and after
(16777216.4, 0) and (16777216.6, 0) it is (0, 0), not (0.2, 0).  Range: at
(2^128, 0) the cast to `float` has no finite value and the first callback passes
nothing.  Second controller: the constructor does not set `gFirstMouse` again, so the
first callback after a second creation, at (2, 0), passes (2, 0), not (0, 0). -/
theorem Mouse_Position_Callback_narrowed :
    (∃ v1 v2 : ViewManager (List (float × float)),
      Mouse_Position_Callback recordingCamera (ViewManager.create recordingCamera none)
        16777217 0 = some v1 ∧
      Mouse_Position_Callback recordingCamera v1 16777218 0 = some v2 ∧
      v2.g_pCamera.other = [(2, 0), (0, 0)] ∧ (16777218 : ℚ) - 16777217 = 1) ∧
    (∃ v1 v2 : ViewManager (List (float × float)),
      Mouse_Position_Callback recordingCamera (ViewManager.create recordingCamera none)
        (83886082 / 5) 0 = some v1 ∧
      Mouse_Position_Callback recordingCamera v1 (83886083 / 5) 0 = some v2 ∧
      v2.g_pCamera.other = [(0, 0), (0, 0)] ∧
      (83886083 / 5 : ℚ) - 83886082 / 5 = 1 / 5) ∧
    Mouse_Position_Callback recordingCamera (ViewManager.create recordingCamera none)
      (2 ^ 128) 0 = none ∧
    (∃ v1 v2 : ViewManager (List (float × float)),
      Mouse_Position_Callback recordingCamera (ViewManager.create recordingCamera none)
        0 0 = some v1 ∧
      Mouse_Position_Callback recordingCamera
        (ViewManager.construct recordingCamera none v1) 2 0 = some v2 ∧
      v2.g_pCamera.other = [(2, 0)]) := by
  have h00 : toBinary32 (0 - 0) = some 0 := by
    rw [sub_zero]
    exact toBinary32_zero
  have h20 : toBinary32 (2 - 0) = some 2 := by
    rw [sub_zero]
    exact toBinary32_two
  have hd1 : toBinary32 (16777218 - 16777216) = some 2 := by
    norm_num
    exact toBinary32_two
  have hd2 : toBinary32 (16777216 - 16777216) = some 0 := by
    rw [sub_self]
    exact toBinary32_zero
  refine ⟨?_, ?_, ?_, ?_⟩
  · exact ⟨_, _,
      Mouse_Position_Callback_first recordingCamera _ rfl 16777217 0 16777216 0
        toBinary32_16777217 toBinary32_zero,
      Mouse_Position_Callback_next recordingCamera _ rfl 16777218 0 16777218 0 2 0
        toBinary32_16777218 toBinary32_zero hd1 h00,
      rfl, by norm_num⟩
  · exact ⟨_, _,
      Mouse_Position_Callback_first recordingCamera _ rfl (83886082 / 5) 0
        16777216 0 toBinary32_16777216_4 toBinary32_zero,
      Mouse_Position_Callback_next recordingCamera _ rfl (83886083 / 5) 0
        16777216 0 0 0 toBinary32_16777216_6 toBinary32_zero hd2 h00,
      rfl, by norm_num⟩
  · simp [Mouse_Position_Callback, toBinary32_overflow]
  · exact ⟨_, _,
      Mouse_Position_Callback_first recordingCamera _ rfl 0 0 0 0
        toBinary32_zero toBinary32_zero,
      Mouse_Position_Callback_next recordingCamera _ rfl 2 0 2 0 2 0
        toBinary32_two toBinary32_zero h20 h00,
      rfl⟩

/-- C8.  Whatever the projection mode and the other keys: one call of
`ProcessKeyboardEvents` with P down inverts `bOrthographicProjection`, two such calls
restore it, and a call with P up leaves it as it was. -/
theorem ProcessKeyboardEvents_toggle {C : Type} (cam : CameraMethods C)
    (v : ViewManager C) (keys1 keys2 : KeyState) :
    (keys1.p = true →
      (ProcessKeyboardEvents cam v keys1).bOrthographicProjection =
        !v.bOrthographicProjection) ∧
    (keys1.p = true → keys2.p = true →
      (ProcessKeyboardEvents cam (ProcessKeyboardEvents cam v keys1)
        keys2).bOrthographicProjection = v.bOrthographicProjection) ∧
    (keys1.p = false →
      (ProcessKeyboardEvents cam v keys1).bOrthographicProjection =
        v.bOrthographicProjection) := by
  refine ⟨fun h1 => ?_, fun h1 h2 => ?_, fun h1 => ?_⟩
  · rw [(ProcessKeyboardEvents_members cam v keys1).2.2, h1]
    simp
  · rw [(ProcessKeyboardEvents_members cam _ keys2).2.2,
      (ProcessKeyboardEvents_members cam v keys1).2.2, h1, h2]
    simp
  · rw [(ProcessKeyboardEvents_members cam v keys1).2.2, h1]
    simp

/-- C8 on the freshly created view manager (perspective mode): P pressed in two calls
brings perspective back, and a call without P keeps it. -/
theorem ProcessKeyboardEvents_toggle_witness :
    onlyP.p = true ∧ noKeys.p = false ∧
    (ProcessKeyboardEvents stillCamera (ViewManager.create stillCamera none)
      onlyP).bOrthographicProjection = true ∧
    (ProcessKeyboardEvents stillCamera
      (ProcessKeyboardEvents stillCamera (ViewManager.create stillCamera none) onlyP)
      onlyP).bOrthographicProjection = false ∧
    (ProcessKeyboardEvents stillCamera (ViewManager.create stillCamera none)
      noKeys).bOrthographicProjection = false :=
  ⟨rfl, rfl,
    (ProcessKeyboardEvents_toggle stillCamera (ViewManager.create stillCamera none)
      onlyP onlyP).1 rfl,
    (ProcessKeyboardEvents_toggle stillCamera (ViewManager.create stillCamera none)
      onlyP onlyP).2.1 rfl rfl,
    (ProcessKeyboardEvents_toggle stillCamera (ViewManager.create stillCamera none)
      noKeys noKeys).2.2 rfl⟩

/-! ## Projection -/

/-- The vertical bounds of the orthographic volume: `(float)WINDOW_HEIGHT /
WINDOW_WIDTH` is a float division, 800 / 1000, and the bounds are -8 and 8. -/
theorem ortho_vertical_bounds :
    -(10.0 : float) * ((WINDOW_HEIGHT : float) / (WINDOW_WIDTH : float)) = -8 ∧
    (10.0 : float) * ((WINDOW_HEIGHT : float) / (WINDOW_WIDTH : float)) = 8 := by
  simp only [WINDOW_HEIGHT, WINDOW_WIDTH]
  norm_num

theorem PrepareSceneView.projection_orthographic {C : Type} (ops : FloatOps)
    (v : ViewManager C) (hmode : v.bOrthographicProjection = true) :
    PrepareSceneView.projection ops v = glm.ortho (-10) 10 (-8) 8 (1 / 10) 100 := by
  unfold PrepareSceneView.projection
  simp only [hmode, ↓reduceIte]
  rw [ortho_vertical_bounds.1, ortho_vertical_bounds.2]
  norm_num

/-- With a shader manager, the uniform "projection" after `PrepareSceneView` holds the
local `projection`, computed on the state the keyboard processing left, and the
projection flag is the one of that state. -/
theorem PrepareSceneView_projection {C : Type} (ops : FloatOps) (cam : CameraMethods C)
    (v : ViewManager C) (currentFrame : float) (keys : KeyState) (sm : ShaderManager)
    (hsm : v.m_pShaderManager = some sm) :
    ((PrepareSceneView ops cam v currentFrame keys).m_pShaderManager.bind
        fun sm' => sm'.uniform "projection") =
      some (UniformValue.mat4 (PrepareSceneView.projection ops
        (ProcessKeyboardEvents cam
          { v with gDeltaTime := currentFrame - v.gLastFrame, gLastFrame := currentFrame }
          keys))) ∧
    (PrepareSceneView ops cam v currentFrame keys).bOrthographicProjection =
      (ProcessKeyboardEvents cam
        { v with gDeltaTime := currentFrame - v.gLastFrame, gLastFrame := currentFrame }
        keys).bOrthographicProjection := by
  have hk : (ProcessKeyboardEvents cam
      { v with gDeltaTime := currentFrame - v.gLastFrame, gLastFrame := currentFrame }
      keys).m_pShaderManager = some sm := by
    rw [(ProcessKeyboardEvents_members cam _ keys).2.1]
    exact hsm
  unfold PrepareSceneView
  simp only []
  split
  · simp [ShaderManager.uniform, List.lookup, ShaderManager.setMat4Value,
      ShaderManager.setVec3Value, g_ProjectionName, g_ViewName]
  · rename_i hnone
    have hcontra : some sm = none := hk.symm.trans hnone
    cases hcontra

/-- C9.  With a shader manager present, whenever a frame is rendered in orthographic
mode (`bOrthographicProjection` is set once `PrepareSceneView` has processed the
frame's keys), the uniform "projection" receives
`glm::ortho(-10, 10, -8, 8, 0.1, 100)`: left/right -10/+10, bottom/top
`-10 * (800 / 1000)` / `+10 * (800 / 1000)`, near/far 0.1/100.  The matrix is the same
for every camera, zoom included, every clock reading and every prior uniform state. -/
theorem PrepareSceneView_orthographic {C : Type} (ops : FloatOps) (cam : CameraMethods C)
    (v : ViewManager C) (currentFrame : float) (keys : KeyState) (sm : ShaderManager)
    (hsm : v.m_pShaderManager = some sm)
    (hmode :
      (PrepareSceneView ops cam v currentFrame keys).bOrthographicProjection = true) :
    ((PrepareSceneView ops cam v currentFrame keys).m_pShaderManager.bind
        fun sm' => sm'.uniform "projection") =
      some (UniformValue.mat4 (glm.ortho (-10) 10 (-8) 8 (1 / 10) 100)) ∧
    (-(10.0 : float) * ((WINDOW_HEIGHT : float) / (WINDOW_WIDTH : float)) = -8 ∧
      (10.0 : float) * ((WINDOW_HEIGHT : float) / (WINDOW_WIDTH : float)) = 8) ∧
    glm.ortho (-10) 10 (-8) 8 (1 / 10) 100 =
      !![1 / 10, 0, 0, 0;
         0, 1 / 8, 0, 0;
         0, 0, -20 / 999, -1001 / 999;
         0, 0, 0, 1] := by
  obtain ⟨hproj, hflag⟩ := PrepareSceneView_projection ops cam v currentFrame keys sm hsm
  rw [hflag] at hmode
  refine ⟨?_, ortho_vertical_bounds, ?_⟩
  · rw [hproj, PrepareSceneView.projection_orthographic ops _ hmode]
  · unfold glm.ortho
    norm_num

/-- C9 on the freshly created view manager: P is down in the frame, the mode becomes
orthographic, and the uniform "projection" holds `glm::ortho(-10, 10, -8, 8, 0.1, 100)`. -/
theorem PrepareSceneView_orthographic_witness :
    (ViewManager.create stillCamera (some woodShader)).m_pShaderManager =
      some woodShader ∧
    (PrepareSceneView quarterTurnOps stillCamera
      (ViewManager.create stillCamera (some woodShader)) 1
      onlyP).bOrthographicProjection = true ∧
    ((PrepareSceneView quarterTurnOps stillCamera
        (ViewManager.create stillCamera (some woodShader)) 1
        onlyP).m_pShaderManager.bind fun sm' => sm'.uniform "projection") =
      some (UniformValue.mat4 (glm.ortho (-10) 10 (-8) 8 (1 / 10) 100)) :=
  ⟨rfl, rfl,
    (PrepareSceneView_orthographic quarterTurnOps stillCamera
      (ViewManager.create stillCamera (some woodShader)) 1 onlyP woodShader rfl rfl).1⟩

/-! ## Scene preparation -/

/-- C10.  On a scene manager with no texture loaded, an empty material table and room
for three textures in the slot array (it has 16 slots), when the three texture files
decode as RGB or RGBA images, `PrepareScene` completes, the loaded count is 3 with the
tags "wood", "metal", "brick" in slots 0, 1, 2, and the material table has the 2
entries "wood", "metal". -/
theorem PrepareScene_counts (ops : FloatOps) (stbi_load : String → Option StbImage)
    (s : SceneManager) (hcount : s.m_loadedTextures = 0)
    (hmat : s.m_objectMaterials = []) (hcap : 3 ≤ s.m_textureIDs.length)
    (wood metal brick : StbImage)
    (hwood : stbi_load "textures/wood.png" = some wood)
    (hwoodc : wood.colorChannels = 3 ∨ wood.colorChannels = 4)
    (hmetal : stbi_load "textures/metal.png" = some metal)
    (hmetalc : metal.colorChannels = 3 ∨ metal.colorChannels = 4)
    (hbrick : stbi_load "textures/brick.png" = some brick)
    (hbrickc : brick.colorChannels = 3 ∨ brick.colorChannels = 4) :
    ∃ s' : SceneManager,
      PrepareScene ops stbi_load s = some s' ∧
      s'.m_loadedTextures = 3 ∧
      (s'.m_textureIDs.take 3).map (fun e => e.tag) = ["wood", "metal", "brick"] ∧
      s'.m_objectMaterials.length = 2 ∧
      s'.m_objectMaterials.map (fun m => m.tag) = ["wood", "metal"] := by
  obtain ⟨s1, id1, h1, c1, t1, m1, p1⟩ := CreateGLTexture_loaded stbi_load
    { s with
      m_basicMeshes := "LoadPlaneMesh" :: "LoadConeMesh" :: "LoadCylinderMesh" ::
        "LoadBoxMesh" :: s.m_basicMeshes }
    "textures/wood.png" "wood" wood hwood hwoodc (by simp [hcount])
    (by simp only [hcount]; omega)
  simp only [hcount, hmat] at c1 t1 m1
  obtain ⟨s2, id2, h2, c2, t2, m2, p2⟩ := CreateGLTexture_loaded stbi_load s1
    "textures/metal.png" "metal" metal hmetal hmetalc (by omega)
    (by rw [c1, t1, List.length_set]; omega)
  rw [c1] at c2 t2
  rw [t1] at t2
  rw [m1] at m2
  obtain ⟨s3, id3, h3, c3, t3, m3, p3⟩ := CreateGLTexture_loaded stbi_load s2
    "textures/brick.png" "brick" brick hbrick hbrickc (by omega)
    (by rw [c2, t2, List.length_set, List.length_set]; omega)
  rw [c2] at c3 t3
  rw [t2] at t3
  rw [m2] at m3
  have htags : (s3.m_textureIDs.take 3).map (fun e => e.tag) =
      ["wood", "metal", "brick"] := by
    rw [t3]
    match hl : s.m_textureIDs, hcap with
    | a :: b :: c :: rest, _ => simp
  unfold PrepareScene
  simp only [h1, h2, h3, bind, Option.bind]
  cases hp : s3.m_pShaderManager with
  | none =>
    refine ⟨_, rfl, ?_, ?_, ?_, ?_⟩
    · simpa using c3
    · simpa using htags
    · simp [m3]
    · simp [m3]
  | some sm =>
    refine ⟨_, rfl, ?_, ?_, ?_, ?_⟩
    · simpa using c3
    · simpa using htags
    · simp [m3]
    · simp [m3]

/-- C10 on a fresh 16-slot scene manager with a shader, all three files decoding as
RGBA images. -/
theorem PrepareScene_counts_witness :
    freshScene.m_loadedTextures = 0 ∧ freshScene.m_objectMaterials = [] ∧
    3 ≤ freshScene.m_textureIDs.length ∧
    ∃ s' : SceneManager,
      PrepareScene quarterTurnOps (constDecoder 4) freshScene = some s' ∧
      s'.m_loadedTextures = 3 ∧
      (s'.m_textureIDs.take 3).map (fun e => e.tag) = ["wood", "metal", "brick"] ∧
      s'.m_objectMaterials.length = 2 ∧
      s'.m_objectMaterials.map (fun m => m.tag) = ["wood", "metal"] :=
  ⟨rfl, rfl, by decide,
    PrepareScene_counts quarterTurnOps (constDecoder 4) freshScene rfl rfl (by decide)
      ⟨64, 64, 4⟩ ⟨64, 64, 4⟩ ⟨64, 64, 4⟩ rfl (Or.inr rfl) rfl (Or.inr rfl) rfl
      (Or.inr rfl)⟩


/-! ## Scene rendering -/

/-- The slot loop reads the registry only: two scene managers with the same slot array
and count give the same result. -/
theorem FindTextureSlot_loop_registry (s t : SceneManager) (tag : String)
    (hids : s.m_textureIDs = t.m_textureIDs)
    (hcount : s.m_loadedTextures = t.m_loadedTextures)
    (n : Nat) : ∀ (index : Nat) (textureSlot : Int),
      (s.m_loadedTextures - index).toNat = n →
      FindTextureSlot.loop s tag index false textureSlot =
        FindTextureSlot.loop t tag index false textureSlot := by
  induction n with
  | zero =>
    intro index textureSlot hn
    conv_lhs => rw [FindTextureSlot.loop]
    conv_rhs => rw [FindTextureSlot.loop]
    have h1 : ¬ ((index : Int) < s.m_loadedTextures) := by omega
    have h2 : ¬ ((index : Int) < t.m_loadedTextures) := by omega
    simp [h1, h2]
  | succ n ih =>
    intro index textureSlot hn
    conv_lhs => rw [FindTextureSlot.loop]
    conv_rhs => rw [FindTextureSlot.loop]
    have h1 : (index : Int) < s.m_loadedTextures := by omega
    have h2 : (index : Int) < t.m_loadedTextures := by omega
    simp only [h1, h2, and_self, ↓reduceDIte, ← hids]
    cases s.m_textureIDs[index]? with
    | none => rfl
    | some e =>
      by_cases he : e.tag = tag
      · simp only [he, ↓reduceIte, FindTextureSlot_loop_found]
      · simp only [he, ↓reduceIte]
        exact ih (index + 1) textureSlot (by omega)

/-- With the loaded count inside the slot array the slot loop returns a value. -/
theorem FindTextureSlot_loop_defined (s : SceneManager) (tag : String)
    (hcap : s.m_loadedTextures ≤ (s.m_textureIDs.length : Int))
    (n : Nat) : ∀ (index : Nat) (textureSlot : Int),
      (s.m_loadedTextures - index).toNat = n →
      ∃ v : Int, FindTextureSlot.loop s tag index false textureSlot = some v := by
  induction n with
  | zero =>
    intro index textureSlot hn
    rw [FindTextureSlot.loop]
    have h1 : ¬ ((index : Int) < s.m_loadedTextures) := by omega
    exact ⟨textureSlot, by simp [h1]⟩
  | succ n ih =>
    intro index textureSlot hn
    rw [FindTextureSlot.loop]
    have hlt : (index : Int) < s.m_loadedTextures := by omega
    have hlen : index < s.m_textureIDs.length := by omega
    have hget : s.m_textureIDs[index]? = some (s.m_textureIDs[index]) :=
      List.getElem?_eq_getElem hlen
    simp only [hlt, and_self, ↓reduceDIte, hget]
    by_cases he : (s.m_textureIDs[index]).tag = tag
    · exact ⟨index, by simp only [he, ↓reduceIte, FindTextureSlot_loop_found]⟩
    · simp only [he, ↓reduceIte]
      exact ih (index + 1) textureSlot (by omega)

/-- With a shader manager and the loaded count inside the slot array,
`SetShaderTexture` adds two uploads, "bUseTexture" and then "objectTexture" with a slot
value that the registry and the tag determine. -/
theorem SetShaderTexture_uploads (ids : List TEXTURE_INFO) (count : Int)
    (hcap : count ≤ (ids.length : Int)) (tag : String) :
    ∃ v : Int, ∀ (sm : ShaderManager) (meshes : List String)
      (mats : List OBJECT_MATERIAL) (gl : List Nat),
      SetShaderTexture ⟨some sm, meshes, ids, count, mats, gl⟩ tag =
        some ⟨some ⟨("objectTexture", UniformValue.sampler2D v) ::
          ("bUseTexture", UniformValue.int 1) :: sm.uploads⟩, meshes, ids, count, mats, gl⟩ := by
  obtain ⟨v, hv⟩ := FindTextureSlot_loop_defined ⟨none, [], ids, count, [], []⟩ tag hcap
    _ 0 (-1) rfl
  refine ⟨v, fun sm meshes mats gl => ?_⟩
  have hslot : FindTextureSlot ⟨some sm, meshes, ids, count, mats, gl⟩ tag = some v := by
    unfold FindTextureSlot
    rw [FindTextureSlot_loop_registry ⟨some sm, meshes, ids, count, mats, gl⟩
      ⟨none, [], ids, count, [], []⟩ tag rfl rfl _ 0 (-1) rfl]
    exact hv
  simp only [SetShaderTexture, hslot]
  rfl

/-- On a table whose first entry with the tag is `e`, `FindMaterial` returns `true` and
fills the five value members of the output from `e`. -/
theorem FindMaterial_at_first (s : SceneManager) (tag : String)
    (material : OBJECT_MATERIAL) (k : Nat) (e : OBJECT_MATERIAL)
    (he : s.m_objectMaterials[k]? = some e) (htag : e.tag = tag)
    (hmin : ∀ (j : Nat) (e' : OBJECT_MATERIAL), j < k →
      s.m_objectMaterials[j]? = some e' → e'.tag ≠ tag) :
    FindMaterial s tag material =
      (true,
        { material with
          ambientColor := e.ambientColor
          ambientStrength := e.ambientStrength
          diffuseColor := e.diffuseColor
          specularColor := e.specularColor
          shininess := e.shininess }) := by
  have hne : s.m_objectMaterials.length ≠ 0 := by
    intro h0
    rw [List.getElem?_eq_none (by omega)] at he
    cases he
  unfold FindMaterial
  rw [FindMaterial_loop_first s tag k e he htag hmin _ 0 material rfl (Nat.zero_le k)]
  simp [hne]

/-- Every list of materials either has a first entry with the tag or has none. -/
theorem first_material_or_absent (tag : String) : ∀ l : List OBJECT_MATERIAL,
    (∃ (k : Nat) (e : OBJECT_MATERIAL), l[k]? = some e ∧ e.tag = tag ∧
      ∀ (j : Nat) (e' : OBJECT_MATERIAL), j < k → l[j]? = some e' → e'.tag ≠ tag) ∨
    (∀ e ∈ l, e.tag ≠ tag) := by
  intro l
  induction l with
  | nil => exact Or.inr (fun e he => absurd he (List.not_mem_nil e))
  | cons a l ih =>
    by_cases ha : a.tag = tag
    · exact Or.inl ⟨0, a, List.getElem?_cons_zero, ha, fun j _ hj => absurd hj (Nat.not_lt_zero j)⟩
    · rcases ih with ⟨k, e, hk, he, hmin⟩ | habs
      · refine Or.inl ⟨k + 1, e, by simpa using hk, he, ?_⟩
        intro j e' hj hj'
        cases j with
        | zero =>
          simp only [List.getElem?_cons_zero, Option.some.injEq] at hj'
          subst hj'
          exact ha
        | succ j =>
          exact hmin j e' (by omega) (by simpa using hj')
      · refine Or.inr ?_
        intro e he
        rcases List.mem_cons.mp he with h | h
        · subst h; exact ha
        · exact habs e h

/-- Over entries none of which has the tag the `applyMaterial` loop does nothing. -/
theorem applyMaterial_loop_absent (s : SceneManager) (tag : String)
    (uninit : OBJECT_MATERIAL) : ∀ l : List OBJECT_MATERIAL,
    (∀ e ∈ l, e.tag ≠ tag) → RenderScene.applyMaterial.loop s tag uninit l = some s := by
  intro l
  induction l with
  | nil => intro _; rfl
  | cons a l ih =>
    intro habs
    have ha : a.tag ≠ tag := habs a (List.mem_cons_self a l)
    simp only [RenderScene.applyMaterial.loop, ha, ↓reduceIte]
    exact ih (fun e he => habs e (List.mem_cons_of_mem a he))

/-- The `applyMaterial` loop stops at the first entry with the tag. -/
theorem applyMaterial_loop_first (s : SceneManager) (tag : String)
    (uninit : OBJECT_MATERIAL) (e : OBJECT_MATERIAL) (htag : e.tag = tag) :
    ∀ (k : Nat) (l : List OBJECT_MATERIAL), l[k]? = some e →
      (∀ (j : Nat) (e' : OBJECT_MATERIAL), j < k → l[j]? = some e' → e'.tag ≠ tag) →
      RenderScene.applyMaterial.loop s tag uninit l =
        (SetShaderMaterial s tag uninit).bind fun s1 =>
          s1.callShader fun sm => sm.setVec3Value "objectColor" e.diffuseColor := by
  intro k
  induction k with
  | zero =>
    intro l hk _
    cases l with
    | nil => simp at hk
    | cons a l =>
      simp only [List.getElem?_cons_zero, Option.some.injEq] at hk
      subst hk
      simp only [RenderScene.applyMaterial.loop, htag, ↓reduceIte]
      rfl
  | succ k ih =>
    intro l hk hmin
    cases l with
    | nil => simp at hk
    | cons a l =>
      have ha : a.tag ≠ tag := hmin 0 a (Nat.succ_pos k) List.getElem?_cons_zero
      simp only [RenderScene.applyMaterial.loop, ha, ↓reduceIte]
      exact ih l (by simpa using hk)
        (fun j e' hj hj' => hmin (j + 1) e' (by omega) (by simpa using hj'))

/-- With a shader manager, `applyMaterial` adds uploads that the material table and the
tag determine: none when no entry has the tag, otherwise the five `material.*` values
and the diffuse colour of the first entry with the tag.  The content of the unassigned
local of `SetShaderMaterial` plays no part. -/
theorem applyMaterial_uploads (mats : List OBJECT_MATERIAL) (tag : String) :
    ∃ W : List (String × UniformValue), (∀ p ∈ W, p.1 ∈ RenderScene.drawNames) ∧
      ∀ (sm : ShaderManager) (meshes : List String) (ids : List TEXTURE_INFO)
        (count : Int) (gl : List Nat) (uninit : OBJECT_MATERIAL),
        RenderScene.applyMaterial ⟨some sm, meshes, ids, count, mats, gl⟩ tag uninit =
          some ⟨some ⟨W ++ sm.uploads⟩, meshes, ids, count, mats, gl⟩ := by
  rcases first_material_or_absent tag mats with ⟨k, e, hk, he, hmin⟩ | habs
  · refine ⟨[("objectColor", UniformValue.vec3 e.diffuseColor),
      ("material.shininess", UniformValue.float e.shininess),
      ("material.specularColor", UniformValue.vec3 e.specularColor),
      ("material.diffuseColor", UniformValue.vec3 e.diffuseColor),
      ("material.ambientStrength", UniformValue.float e.ambientStrength),
      ("material.ambientColor", UniformValue.vec3 e.ambientColor)], ?_, ?_⟩
    · intro p hp
      simp only [List.mem_cons, List.mem_singleton, List.not_mem_nil, or_false] at hp
      rcases hp with h | h | h | h | h | h <;> subst h <;> simp [RenderScene.drawNames]
    · intro sm meshes ids count gl uninit
      have hne : mats ≠ [] := by
        intro h0
        subst h0
        simp at hk
      unfold RenderScene.applyMaterial
      rw [applyMaterial_loop_first _ tag uninit e he k mats hk hmin,
        SetShaderMaterial_nonempty _ tag uninit sm rfl hne,
        FindMaterial_at_first _ tag uninit k e hk he hmin]
      rfl
  · refine ⟨[], fun p hp => absurd hp (List.not_mem_nil p), ?_⟩
    intro sm meshes ids count gl uninit
    unfold RenderScene.applyMaterial
    rw [applyMaterial_loop_absent _ tag uninit mats habs]
    rfl

theorem drawNames_nil :
    ∀ p ∈ ([] : List (String × UniformValue)), p.1 ∈ RenderScene.drawNames :=
  fun p hp => absurd hp (List.not_mem_nil p)

theorem drawNames_cons {name : String} {v : UniformValue}
    {B : List (String × UniformValue)} (hname : name ∈ RenderScene.drawNames)
    (hB : ∀ p ∈ B, p.1 ∈ RenderScene.drawNames) :
    ∀ p ∈ (name, v) :: B, p.1 ∈ RenderScene.drawNames := by
  intro p hp
  rcases List.mem_cons.mp hp with h | h
  · subst h; exact hname
  · exact hB p h

theorem drawNames_append {A B : List (String × UniformValue)}
    (hA : ∀ p ∈ A, p.1 ∈ RenderScene.drawNames)
    (hB : ∀ p ∈ B, p.1 ∈ RenderScene.drawNames) :
    ∀ p ∈ A ++ B, p.1 ∈ RenderScene.drawNames := by
  intro p hp
  rcases List.mem_append.mp hp with h | h
  · exact hA p h
  · exact hB p h

/-- A uniform whose name is not among the names of a list of uploads is not found in
that list. -/
theorem lookup_of_not_mem_names (names : List String) (name : String)
    (hname : name ∉ names) : ∀ W : List (String × UniformValue),
    (∀ p ∈ W, p.1 ∈ names) → W.lookup name = none := by
  intro W
  induction W with
  | nil => intro _; rfl
  | cons a W ih =>
    intro hW
    have ha : a.1 ∈ names := hW a (List.mem_cons_self a W)
    have hne : (name == a.1) = false := by
      rw [beq_eq_false_iff_ne]
      intro h
      exact hname (h ▸ ha)
    obtain ⟨k, v⟩ := a
    simp only [List.lookup_cons, hne]
    exact ih (fun p hp => hW p (List.mem_cons_of_mem _ hp))

/-- The uploads of the lighting block do not depend on the uploads made before. -/
theorem RenderScene_lighting_uploads (sm : ShaderManager) :
    RenderScene.lighting sm = ⟨(RenderScene.lighting ⟨[]⟩).uploads ++ sm.uploads⟩ := rfl

/-- The block "DESK SURFACE": with a shader manager and the loaded count inside the
slot array it only adds uploads, under the names of `drawNames`, that the registry and
the material table determine. -/
theorem RenderScene_deskSurface_uploads (ops : FloatOps) (ids : List TEXTURE_INFO)
    (count : Int) (hcap : count ≤ (ids.length : Int)) (mats : List OBJECT_MATERIAL) :
    ∃ (W : List (String × UniformValue)) (D : List String),
      (∀ p ∈ W, p.1 ∈ RenderScene.drawNames) ∧
      ∀ (sm : ShaderManager) (meshes : List String) (gl : List Nat)
        (uninit : OBJECT_MATERIAL),
        RenderScene.deskSurface ops ⟨some sm, meshes, ids, count, mats, gl⟩ uninit =
          some ⟨some ⟨W ++ sm.uploads⟩, D ++ meshes, ids, count, mats, gl⟩ := by
  obtain ⟨v, hv⟩ := SetShaderTexture_uploads ids count hcap "wood"
  obtain ⟨Wm, hn, hm⟩ := applyMaterial_uploads mats "wood"
  refine ⟨Wm ++ [("objectTexture", UniformValue.sampler2D v),
      ("bUseTexture", UniformValue.int 1),
      ("model", UniformValue.mat4 (SetTransformations.modelView ops ⟨10.0, 0.2, 6.0⟩
        0.0 0.0 0.0 ⟨0.0, -0.1, 0.0⟩))], ["DrawBoxMesh"],
    drawNames_append hn (drawNames_cons (by decide) (drawNames_cons (by decide)
      (drawNames_cons (by decide) drawNames_nil))), ?_⟩
  intro sm meshes gl uninit
  simp only [RenderScene.deskSurface, SetTransformations, ShaderManager.setMat4Value,
    g_ModelName, hv, hm, DrawBoxMesh, bind, Option.bind, pure, List.append_assoc,
    List.cons_append, List.nil_append]

/-- The block "MONITOR" only adds uploads that the registry and the material table
determine. -/
theorem RenderScene_monitor_uploads (ops : FloatOps) (ids : List TEXTURE_INFO)
    (count : Int) (hcap : count ≤ (ids.length : Int)) (mats : List OBJECT_MATERIAL) :
    ∃ (W : List (String × UniformValue)) (D : List String),
      (∀ p ∈ W, p.1 ∈ RenderScene.drawNames) ∧
      ∀ (sm : ShaderManager) (meshes : List String) (gl : List Nat)
        (uninit : OBJECT_MATERIAL),
        RenderScene.monitor ops ⟨some sm, meshes, ids, count, mats, gl⟩ uninit =
          some ⟨some ⟨W ++ sm.uploads⟩, D ++ meshes, ids, count, mats, gl⟩ := by
  obtain ⟨v, hv⟩ := SetShaderTexture_uploads ids count hcap "metal"
  obtain ⟨Wm, hn, hm⟩ := applyMaterial_uploads mats "metal"
  refine ⟨("model", UniformValue.mat4 (SetTransformations.modelView ops ⟨1.0, 0.1, 0.5⟩
        0.0 0.0 0.0 ⟨0.0, 0.35, -1.5⟩)) ::
      ("model", UniformValue.mat4 (SetTransformations.modelView ops ⟨0.2, 0.8, 0.2⟩
        0.0 0.0 0.0 ⟨0.0, 0.8, -1.5⟩)) :: (Wm ++
      [("objectTexture", UniformValue.sampler2D v),
      ("bUseTexture", UniformValue.int 1),
      ("model", UniformValue.mat4 (SetTransformations.modelView ops ⟨2.0, 1.2, 0.1⟩
        0.0 0.0 0.0 ⟨0.0, 1.5, -1.5⟩))]),
    ["DrawBoxMesh", "DrawBoxMesh", "DrawBoxMesh"],
    drawNames_cons (by decide) (drawNames_cons (by decide)
      (drawNames_append hn (drawNames_cons (by decide) (drawNames_cons (by decide)
        (drawNames_cons (by decide) drawNames_nil))))), ?_⟩
  intro sm meshes gl uninit
  simp only [RenderScene.monitor, SetTransformations, ShaderManager.setMat4Value,
    g_ModelName, hv, hm, DrawBoxMesh, bind, Option.bind, pure, List.append_assoc,
    List.cons_append, List.nil_append]

/-- The block "LAMP" adds three "model" uploads and three box draws. -/
theorem RenderScene_lamp_uploads (ops : FloatOps) (sm : ShaderManager)
    (meshes : List String) (ids : List TEXTURE_INFO) (count : Int)
    (mats : List OBJECT_MATERIAL) (gl : List Nat) :
    RenderScene.lamp ops ⟨some sm, meshes, ids, count, mats, gl⟩ =
      ⟨some ⟨[("model", UniformValue.mat4 (SetTransformations.modelView ops
          ⟨0.4, 0.2, 0.6⟩ (-45.0) 0.0 0.0 ⟨-3.0, 1.3, -1.3⟩)),
        ("model", UniformValue.mat4 (SetTransformations.modelView ops
          ⟨0.1, 1.0, 0.1⟩ 0.0 0.0 0.0 ⟨-3.0, 0.6, -1.5⟩)),
        ("model", UniformValue.mat4 (SetTransformations.modelView ops
          ⟨0.6, 0.1, 0.6⟩ 0.0 0.0 0.0 ⟨-3.0, 0.05, -1.5⟩))] ++ sm.uploads⟩,
        ["DrawBoxMesh", "DrawBoxMesh", "DrawBoxMesh"] ++ meshes, ids, count, mats,
        gl⟩ := rfl

/-- The block "COFFEE MUG" only adds uploads that the registry and the material table
determine. -/
theorem RenderScene_coffeeMug_uploads (ops : FloatOps) (ids : List TEXTURE_INFO)
    (count : Int) (hcap : count ≤ (ids.length : Int)) (mats : List OBJECT_MATERIAL) :
    ∃ (W : List (String × UniformValue)) (D : List String),
      (∀ p ∈ W, p.1 ∈ RenderScene.drawNames) ∧
      ∀ (sm : ShaderManager) (meshes : List String) (gl : List Nat)
        (uninit : OBJECT_MATERIAL),
        RenderScene.coffeeMug ops ⟨some sm, meshes, ids, count, mats, gl⟩ uninit =
          some ⟨some ⟨W ++ sm.uploads⟩, D ++ meshes, ids, count, mats, gl⟩ := by
  obtain ⟨v, hv⟩ := SetShaderTexture_uploads ids count hcap "brick"
  obtain ⟨Wm, hn, hm⟩ := applyMaterial_uploads mats "metal"
  refine ⟨("model", UniformValue.mat4 (SetTransformations.modelView ops
        ⟨0.05, 0.2, 0.3⟩ 0.0 0.0 0.0 ⟨2.8, 0.2, -1.5⟩)) :: (Wm ++
      [("objectTexture", UniformValue.sampler2D v),
      ("bUseTexture", UniformValue.int 1),
      ("model", UniformValue.mat4 (SetTransformations.modelView ops ⟨0.3, 0.4, 0.3⟩
        0.0 0.0 0.0 ⟨2.5, 0.2, -1.5⟩))]),
    ["DrawCylinderMesh", "DrawCylinderMesh"],
    drawNames_cons (by decide)
      (drawNames_append hn (drawNames_cons (by decide) (drawNames_cons (by decide)
        (drawNames_cons (by decide) drawNames_nil)))), ?_⟩
  intro sm meshes gl uninit
  simp only [RenderScene.coffeeMug, SetTransformations, ShaderManager.setMat4Value,
    g_ModelName, hv, hm, DrawCylinderMesh, bind, Option.bind, pure, List.append_assoc,
    List.cons_append, List.nil_append]

/-- The block "NOTEBOOK" only adds uploads that the registry and the material table
determine. -/
theorem RenderScene_notebook_uploads (ops : FloatOps) (ids : List TEXTURE_INFO)
    (count : Int) (hcap : count ≤ (ids.length : Int)) (mats : List OBJECT_MATERIAL) :
    ∃ (W : List (String × UniformValue)) (D : List String),
      (∀ p ∈ W, p.1 ∈ RenderScene.drawNames) ∧
      ∀ (sm : ShaderManager) (meshes : List String) (gl : List Nat)
        (uninit : OBJECT_MATERIAL),
        RenderScene.notebook ops ⟨some sm, meshes, ids, count, mats, gl⟩ uninit =
          some ⟨some ⟨W ++ sm.uploads⟩, D ++ meshes, ids, count, mats, gl⟩ := by
  obtain ⟨v, hv⟩ := SetShaderTexture_uploads ids count hcap "wood"
  obtain ⟨Wm, hn, hm⟩ := applyMaterial_uploads mats "wood"
  refine ⟨Wm ++ [("objectTexture", UniformValue.sampler2D v),
      ("bUseTexture", UniformValue.int 1),
      ("model", UniformValue.mat4 (SetTransformations.modelView ops ⟨1.0, 0.05, 1.5⟩
        0.0 0.0 0.0 ⟨-1.5, 0.05, -1.5⟩))], ["DrawBoxMesh"],
    drawNames_append hn (drawNames_cons (by decide) (drawNames_cons (by decide)
      (drawNames_cons (by decide) drawNames_nil))), ?_⟩
  intro sm meshes gl uninit
  simp only [RenderScene.notebook, SetTransformations, ShaderManager.setMat4Value,
    g_ModelName, hv, hm, DrawBoxMesh, bind, Option.bind, pure, List.append_assoc,
    List.cons_append, List.nil_append]

/-- The block "PEN" adds a "model" upload, the dark grey "objectColor" and a cylinder
draw. -/
theorem RenderScene_pen_uploads (ops : FloatOps) (sm : ShaderManager)
    (meshes : List String) (ids : List TEXTURE_INFO) (count : Int)
    (mats : List OBJECT_MATERIAL) (gl : List Nat) :
    RenderScene.pen ops ⟨some sm, meshes, ids, count, mats, gl⟩ =
      some ⟨some ⟨[("objectColor", UniformValue.vec3 ⟨0.1, 0.1, 0.1⟩),
        ("model", UniformValue.mat4 (SetTransformations.modelView ops
          ⟨0.05, 0.05, 0.8⟩ 0.0 0.0 0.0 ⟨-1.5, 0.08, -1.5⟩))] ++ sm.uploads⟩,
        ["DrawCylinderMesh"] ++ meshes, ids, count, mats, gl⟩ := rfl

/-- The block "WALL BACKDROP" only adds uploads that the registry and the material table
determine. -/
theorem RenderScene_wallBackdrop_uploads (ops : FloatOps) (ids : List TEXTURE_INFO)
    (count : Int) (hcap : count ≤ (ids.length : Int)) (mats : List OBJECT_MATERIAL) :
    ∃ (W : List (String × UniformValue)) (D : List String),
      (∀ p ∈ W, p.1 ∈ RenderScene.drawNames) ∧
      ∀ (sm : ShaderManager) (meshes : List String) (gl : List Nat)
        (uninit : OBJECT_MATERIAL),
        RenderScene.wallBackdrop ops ⟨some sm, meshes, ids, count, mats, gl⟩ uninit =
          some ⟨some ⟨W ++ sm.uploads⟩, D ++ meshes, ids, count, mats, gl⟩ := by
  obtain ⟨v, hv⟩ := SetShaderTexture_uploads ids count hcap "brick"
  obtain ⟨Wm, hn, hm⟩ := applyMaterial_uploads mats "brick"
  refine ⟨Wm ++ [("objectTexture", UniformValue.sampler2D v),
      ("bUseTexture", UniformValue.int 1),
      ("model", UniformValue.mat4 (SetTransformations.modelView ops ⟨10.0, 5.0, 0.2⟩
        0.0 0.0 0.0 ⟨0.0, 2.5, -4.0⟩))], ["DrawBoxMesh"],
    drawNames_append hn (drawNames_cons (by decide) (drawNames_cons (by decide)
      (drawNames_cons (by decide) drawNames_nil))), ?_⟩
  intro sm meshes gl uninit
  simp only [RenderScene.wallBackdrop, SetTransformations, ShaderManager.setMat4Value,
    g_ModelName, hv, hm, DrawBoxMesh, bind, Option.bind, pure, List.append_assoc,
    List.cons_append, List.nil_append]

/-- The block "FLOOR" only adds uploads that the registry and the material table
determine. -/
theorem RenderScene_floor_uploads (ops : FloatOps) (ids : List TEXTURE_INFO)
    (count : Int) (hcap : count ≤ (ids.length : Int)) (mats : List OBJECT_MATERIAL) :
    ∃ (W : List (String × UniformValue)) (D : List String),
      (∀ p ∈ W, p.1 ∈ RenderScene.drawNames) ∧
      ∀ (sm : ShaderManager) (meshes : List String) (gl : List Nat)
        (uninit : OBJECT_MATERIAL),
        RenderScene.floor ops ⟨some sm, meshes, ids, count, mats, gl⟩ uninit =
          some ⟨some ⟨W ++ sm.uploads⟩, D ++ meshes, ids, count, mats, gl⟩ := by
  obtain ⟨v, hv⟩ := SetShaderTexture_uploads ids count hcap "wood"
  obtain ⟨Wm, hn, hm⟩ := applyMaterial_uploads mats "wood"
  refine ⟨Wm ++ [("objectTexture", UniformValue.sampler2D v),
      ("bUseTexture", UniformValue.int 1),
      ("model", UniformValue.mat4 (SetTransformations.modelView ops ⟨20.0, 0.1, 20.0⟩
        0.0 0.0 0.0 ⟨0.0, -2.0, 0.0⟩))], ["DrawBoxMesh"],
    drawNames_append hn (drawNames_cons (by decide) (drawNames_cons (by decide)
      (drawNames_cons (by decide) drawNames_nil))), ?_⟩
  intro sm meshes gl uninit
  simp only [RenderScene.floor, SetTransformations, ShaderManager.setMat4Value,
    g_ModelName, hv, hm, DrawBoxMesh, bind, Option.bind, pure, List.append_assoc,
    List.cons_append, List.nil_append]

/-- The block "CEILING" only adds uploads that the registry and the material table
determine. -/
theorem RenderScene_ceiling_uploads (ops : FloatOps) (ids : List TEXTURE_INFO)
    (count : Int) (hcap : count ≤ (ids.length : Int)) (mats : List OBJECT_MATERIAL) :
    ∃ (W : List (String × UniformValue)) (D : List String),
      (∀ p ∈ W, p.1 ∈ RenderScene.drawNames) ∧
      ∀ (sm : ShaderManager) (meshes : List String) (gl : List Nat)
        (uninit : OBJECT_MATERIAL),
        RenderScene.ceiling ops ⟨some sm, meshes, ids, count, mats, gl⟩ uninit =
          some ⟨some ⟨W ++ sm.uploads⟩, D ++ meshes, ids, count, mats, gl⟩ := by
  obtain ⟨v, hv⟩ := SetShaderTexture_uploads ids count hcap "metal"
  obtain ⟨Wm, hn, hm⟩ := applyMaterial_uploads mats "metal"
  refine ⟨Wm ++ [("objectTexture", UniformValue.sampler2D v),
      ("bUseTexture", UniformValue.int 1),
      ("model", UniformValue.mat4 (SetTransformations.modelView ops ⟨20.0, 0.1, 20.0⟩
        0.0 0.0 0.0 ⟨0.0, 7.0, 0.0⟩))], ["DrawBoxMesh"],
    drawNames_append hn (drawNames_cons (by decide) (drawNames_cons (by decide)
      (drawNames_cons (by decide) drawNames_nil))), ?_⟩
  intro sm meshes gl uninit
  simp only [RenderScene.ceiling, SetTransformations, ShaderManager.setMat4Value,
    g_ModelName, hv, hm, DrawBoxMesh, bind, Option.bind, pure, List.append_assoc,
    List.cons_append, List.nil_append]

/-- With a shader manager and the loaded count inside the slot array, `RenderScene`
returns, and all it does to the shader is to add first the 24 light uploads and then
uploads `W` under the names of `drawNames`; `W` is the same for every prior upload
history and every content of the unassigned locals. -/
theorem RenderScene_uploads (ops : FloatOps) (ids : List TEXTURE_INFO)
    (count : Int) (hcap : count ≤ (ids.length : Int)) (mats : List OBJECT_MATERIAL) :
    ∃ (W : List (String × UniformValue)) (D : List String),
      (∀ p ∈ W, p.1 ∈ RenderScene.drawNames) ∧
      ∀ (sm : ShaderManager) (meshes : List String) (gl : List Nat)
        (uninit : Nat → OBJECT_MATERIAL),
        RenderScene ops ⟨some sm, meshes, ids, count, mats, gl⟩ uninit =
          some ⟨some ⟨W ++ ((RenderScene.lighting ⟨[]⟩).uploads ++ sm.uploads)⟩,
            D ++ meshes, ids, count, mats, gl⟩ := by
  obtain ⟨W1, D1, n1, h1⟩ := RenderScene_deskSurface_uploads ops ids count hcap mats
  obtain ⟨W2, D2, n2, h2⟩ := RenderScene_monitor_uploads ops ids count hcap mats
  obtain ⟨W4, D4, n4, h4⟩ := RenderScene_coffeeMug_uploads ops ids count hcap mats
  obtain ⟨W5, D5, n5, h5⟩ := RenderScene_notebook_uploads ops ids count hcap mats
  obtain ⟨W7, D7, n7, h7⟩ := RenderScene_wallBackdrop_uploads ops ids count hcap mats
  obtain ⟨W8, D8, n8, h8⟩ := RenderScene_floor_uploads ops ids count hcap mats
  obtain ⟨W9, D9, n9, h9⟩ := RenderScene_ceiling_uploads ops ids count hcap mats
  refine ⟨W9 ++ (W8 ++ (W7 ++ ([("objectColor", UniformValue.vec3 ⟨0.1, 0.1, 0.1⟩),
        ("model", UniformValue.mat4 (SetTransformations.modelView ops
          ⟨0.05, 0.05, 0.8⟩ 0.0 0.0 0.0 ⟨-1.5, 0.08, -1.5⟩))] ++ (W5 ++ (W4 ++
      ([("model", UniformValue.mat4 (SetTransformations.modelView ops
          ⟨0.4, 0.2, 0.6⟩ (-45.0) 0.0 0.0 ⟨-3.0, 1.3, -1.3⟩)),
        ("model", UniformValue.mat4 (SetTransformations.modelView ops
          ⟨0.1, 1.0, 0.1⟩ 0.0 0.0 0.0 ⟨-3.0, 0.6, -1.5⟩)),
        ("model", UniformValue.mat4 (SetTransformations.modelView ops
          ⟨0.6, 0.1, 0.6⟩ 0.0 0.0 0.0 ⟨-3.0, 0.05, -1.5⟩))] ++ (W2 ++ W1))))))),
    D9 ++ (D8 ++ (D7 ++ (["DrawCylinderMesh"] ++ (D5 ++ (D4 ++
      (["DrawBoxMesh", "DrawBoxMesh", "DrawBoxMesh"] ++ (D2 ++ D1))))))), ?_, ?_⟩
  · exact drawNames_append n9 (drawNames_append n8 (drawNames_append n7
      (drawNames_append
        (drawNames_cons (by decide) (drawNames_cons (by decide) drawNames_nil))
        (drawNames_append n5 (drawNames_append n4 (drawNames_append
          (drawNames_cons (by decide) (drawNames_cons (by decide)
            (drawNames_cons (by decide) drawNames_nil)))
          (drawNames_append n2 n1)))))))
  · intro sm meshes gl uninit
    simp only [RenderScene, SceneManager.callShader, RenderScene_lighting_uploads sm,
      h1, h2, RenderScene_lamp_uploads, h4, h5, RenderScene_pen_uploads, h7, h8, h9,
      bind, Option.bind, List.append_assoc]

/-- The light table is what the lighting block uploads, oldest first. -/
theorem RenderScene_lighting_table :
    (RenderScene.lighting ⟨[]⟩).uploads = RenderScene.lightConstants.reverse := rfl

/-- In the uploads of the lighting block every light uniform is found with its
constant, and no light uniform has a name of `drawNames`. -/
theorem RenderScene_lightConstants_lookup :
    ∀ p ∈ RenderScene.lightConstants,
      (RenderScene.lighting ⟨[]⟩).uploads.lookup p.1 = some p.2 ∧
      p.1 ∉ RenderScene.drawNames := by
  intro p hp
  simp only [RenderScene.lightConstants, List.mem_cons, List.mem_singleton,
    List.not_mem_nil, or_false] at hp
  rcases hp with h | h | h | h | h | h | h | h | h | h | h | h | h | h | h | h | h | h |
    h | h | h | h | h | h <;> subst h <;> exact ⟨rfl, by decide⟩

/-- With a shader manager and the loaded count inside the slot array, `RenderScene`
returns and leaves each light uniform with its constant of the table. -/
theorem RenderScene_light_uniforms (ops : FloatOps) (s : SceneManager)
    (sm : ShaderManager) (hsm : s.m_pShaderManager = some sm)
    (hcap : s.m_loadedTextures ≤ (s.m_textureIDs.length : Int))
    (uninit : Nat → OBJECT_MATERIAL) :
    ∃ s1 : SceneManager,
      RenderScene ops s uninit = some s1 ∧
      ∀ p ∈ RenderScene.lightConstants, s1.uniform p.1 = some p.2 := by
  obtain ⟨p, meshes, ids, count, mats, gl⟩ := s
  simp only at hsm hcap
  subst hsm
  obtain ⟨W, D, hn, h⟩ := RenderScene_uploads ops ids count hcap mats
  refine ⟨_, h sm meshes gl uninit, ?_⟩
  intro q hq
  obtain ⟨hfound, hnot⟩ := RenderScene_lightConstants_lookup q hq
  simp only [SceneManager.uniform, ShaderManager.uniform, Option.bind,
    List.lookup_append, lookup_of_not_mem_names RenderScene.drawNames q.1 hnot W hn,
    hfound]
  rfl

/-- Through a null `m_pShaderManager` the first statement of `RenderScene` is already
undefined: the method has no result. -/
theorem RenderScene_null (ops : FloatOps) (s : SceneManager)
    (uninit : Nat → OBJECT_MATERIAL) (hnull : s.m_pShaderManager = none) :
    RenderScene ops s uninit = none := by
  simp [RenderScene, SceneManager.callShader, hnull]

/-- Through a null `m_pShaderManager`, `SetShaderMaterial` on a non-empty material
table reaches its uploads and has no result. -/
theorem SetShaderMaterial_null (s : SceneManager) (materialTag : String)
    (uninit : OBJECT_MATERIAL) (hnull : s.m_pShaderManager = none)
    (hne : s.m_objectMaterials ≠ []) :
    SetShaderMaterial s materialTag uninit = none := by
  have hlen : s.m_objectMaterials.length > 0 := List.length_pos.mpr hne
  have hres := FindMaterial_result s materialTag uninit
  unfold SetShaderMaterial
  simp only [hlen, ↓reduceIte]
  rcases hfm : FindMaterial s materialTag uninit with ⟨b, m⟩
  rw [hfm] at hres
  simp only [hne, ne_eq, not_false_eq_true, decide_True] at hres
  simp [hres, hnull]

/-- C11 on the code.  On the example scene manager `RenderScene` uploads the four
light directions as written in the source, without normalizing them: (-1,-1,-1),
(1,-1,0.5), (0,-0.5,1) and (0,-1,0), with `x^2 + y^2 + z^2` equal to 3, 9/4, 5/4 and 1.
Only the fourth is a unit vector. -/
theorem RenderScene_light_directions :
    ∃ s1 : SceneManager,
      RenderScene quarterTurnOps exampleScene (fun _ => staleMaterial) = some s1 ∧
      s1.uniform "lightSources[0].direction" =
        some (UniformValue.vec3 ⟨-1.0, -1.0, -1.0⟩) ∧
      s1.uniform "lightSources[1].direction" =
        some (UniformValue.vec3 ⟨1.0, -1.0, 0.5⟩) ∧
      s1.uniform "lightSources[2].direction" =
        some (UniformValue.vec3 ⟨0.0, -0.5, 1.0⟩) ∧
      s1.uniform "lightSources[3].direction" =
        some (UniformValue.vec3 ⟨0.0, -1.0, 0.0⟩) ∧
      glm.dot ⟨-1.0, -1.0, -1.0⟩ ⟨-1.0, -1.0, -1.0⟩ = 3 ∧
      glm.dot ⟨1.0, -1.0, 0.5⟩ ⟨1.0, -1.0, 0.5⟩ = 9 / 4 ∧
      glm.dot ⟨0.0, -0.5, 1.0⟩ ⟨0.0, -0.5, 1.0⟩ = 5 / 4 ∧
      glm.dot ⟨0.0, -1.0, 0.0⟩ ⟨0.0, -1.0, 0.0⟩ = 1 := by
  obtain ⟨s1, hrun, hlights⟩ := RenderScene_light_uniforms quarterTurnOps exampleScene
    woodShader rfl (by decide) (fun _ => staleMaterial)
  refine ⟨s1, hrun,
    hlights ("lightSources[0].direction", UniformValue.vec3 ⟨-1.0, -1.0, -1.0⟩)
      (by simp [RenderScene.lightConstants]),
    hlights ("lightSources[1].direction", UniformValue.vec3 ⟨1.0, -1.0, 0.5⟩)
      (by simp [RenderScene.lightConstants]),
    hlights ("lightSources[2].direction", UniformValue.vec3 ⟨0.0, -0.5, 1.0⟩)
      (by simp [RenderScene.lightConstants]),
    hlights ("lightSources[3].direction", UniformValue.vec3 ⟨0.0, -1.0, 0.0⟩)
      (by simp [RenderScene.lightConstants]), ?_, ?_, ?_, ?_⟩ <;>
    (simp only [glm.dot]; norm_num)

/-- C12 on the code.  With a null `m_pShaderManager`: `SetTransformations`,
`SetShaderColor`, `SetShaderTexture`, `SetTextureUVScale`, `PrepareScene` and
`PrepareSceneView` skip their uploads and complete; `SetShaderMaterial` on the
non-empty material table of the example and `RenderScene` on every scene manager
call through the null pointer and have no result. -/
theorem null_shader_manager :
    nullScene.m_pShaderManager = none ∧
    SetTransformations quarterTurnOps nullScene ⟨2, 1, 1⟩ 0 90 0 ⟨1, 0, 0⟩ = nullScene ∧
    SetShaderColor nullScene 1 1 1 1 = nullScene ∧
    SetShaderTexture nullScene "wood" = some nullScene ∧
    SetTextureUVScale nullScene 1 1 = nullScene ∧
    (∃ s' : SceneManager,
      PrepareScene quarterTurnOps (constDecoder 3) nullScene = some s' ∧
      s'.m_pShaderManager = none) ∧
    (PrepareSceneView quarterTurnOps stillCamera (ViewManager.create stillCamera none)
      1 onlyP).m_pShaderManager = none ∧
    nullScene.m_objectMaterials ≠ [] ∧
    SetShaderMaterial nullScene "wood" staleMaterial = none ∧
    (∀ (ops : FloatOps) (s : SceneManager) (uninit : Nat → OBJECT_MATERIAL),
      s.m_pShaderManager = none → RenderScene ops s uninit = none) := by
  refine ⟨rfl, rfl, rfl, rfl, rfl, ?_, rfl, by simp [nullScene, exampleScene],
    SetShaderMaterial_null nullScene "wood" staleMaterial rfl
      (by simp [nullScene, exampleScene]),
    fun ops s uninit hnull => RenderScene_null ops s uninit hnull⟩
  obtain ⟨s1, _, h1, c1, t1, _, p1⟩ := CreateGLTexture_loaded (constDecoder 3)
    { nullScene with
      m_basicMeshes := "LoadPlaneMesh" :: "LoadConeMesh" :: "LoadCylinderMesh" ::
        "LoadBoxMesh" :: nullScene.m_basicMeshes }
    "textures/wood.png" "wood" ⟨64, 64, 3⟩ rfl (Or.inl rfl) (by decide) (by decide)
  obtain ⟨s2, _, h2, c2, t2, _, p2⟩ := CreateGLTexture_loaded (constDecoder 3) s1
    "textures/metal.png" "metal" ⟨64, 64, 3⟩ rfl (Or.inl rfl)
    (by rw [c1]; decide) (by rw [c1, t1, List.length_set]; decide)
  obtain ⟨s3, _, h3, c3, t3, _, p3⟩ := CreateGLTexture_loaded (constDecoder 3) s2
    "textures/brick.png" "brick" ⟨64, 64, 3⟩ rfl (Or.inl rfl)
    (by rw [c2, c1]; decide)
    (by rw [c2, c1, t2, t1, List.length_set, List.length_set]; decide)
  have hp : s3.m_pShaderManager = none := by rw [p3, p2, p1]; rfl
  unfold PrepareScene
  simp only [h1, h2, h3, bind, Option.bind, hp]
  exact ⟨_, rfl, rfl⟩

/-- C13.  With a shader manager present and the loaded count inside the slot array,
for every prior uniform state, registry and material table (and every content of the
unassigned locals): `RenderScene` returns, a second run returns too and leaves every
uniform with the value it had after the first run, and after a run each of the 24
light uniforms holds its constant of `lightConstants`, whatever it held before. -/
theorem RenderScene_idempotent (ops : FloatOps) (s : SceneManager) (sm : ShaderManager)
    (hsm : s.m_pShaderManager = some sm)
    (hcap : s.m_loadedTextures ≤ (s.m_textureIDs.length : Int))
    (uninit1 uninit2 : Nat → OBJECT_MATERIAL) :
    ∃ s1 s2 : SceneManager,
      RenderScene ops s uninit1 = some s1 ∧
      RenderScene ops s1 uninit2 = some s2 ∧
      (∀ name : String, s2.uniform name = s1.uniform name) ∧
      RenderScene.lightConstants.length = 24 ∧
      (RenderScene.lightConstants.map fun p => p.1).Nodup ∧
      (∀ p ∈ RenderScene.lightConstants,
        s1.uniform p.1 = some p.2 ∧ s2.uniform p.1 = some p.2) := by
  obtain ⟨p, meshes, ids, count, mats, gl⟩ := s
  simp only at hsm hcap
  subst hsm
  obtain ⟨W, D, hn, h⟩ := RenderScene_uploads ops ids count hcap mats
  have hsame : ∀ name : String,
      (W ++ ((RenderScene.lighting ⟨[]⟩).uploads ++
        (W ++ ((RenderScene.lighting ⟨[]⟩).uploads ++ sm.uploads)))).lookup name =
      (W ++ ((RenderScene.lighting ⟨[]⟩).uploads ++ sm.uploads)).lookup name := by
    intro name
    simp only [List.lookup_append]
    cases List.lookup name W <;>
      cases List.lookup name (RenderScene.lighting ⟨[]⟩).uploads <;> simp
  have hlight : ∀ q ∈ RenderScene.lightConstants,
      (W ++ ((RenderScene.lighting ⟨[]⟩).uploads ++ sm.uploads)).lookup q.1 =
        some q.2 := by
    intro q hq
    obtain ⟨hfound, hnot⟩ := RenderScene_lightConstants_lookup q hq
    simp only [List.lookup_append,
      lookup_of_not_mem_names RenderScene.drawNames q.1 hnot W hn, hfound]
    rfl
  refine ⟨_, _, h sm meshes gl uninit1, h _ _ gl uninit2, ?_, rfl, by decide, ?_⟩
  · intro name
    exact hsame name
  · intro q hq
    refine ⟨hlight q hq, ?_⟩
    exact (hsame q.1).trans (hlight q hq)

/-- C13 on the example scene manager: two runs in a row return and agree on every
uniform. -/
theorem RenderScene_idempotent_witness :
    exampleScene.m_pShaderManager = some woodShader ∧
    exampleScene.m_loadedTextures ≤ (exampleScene.m_textureIDs.length : Int) ∧
    ∃ s1 s2 : SceneManager,
      RenderScene quarterTurnOps exampleScene (fun _ => staleMaterial) = some s1 ∧
      RenderScene quarterTurnOps s1 (fun _ => woodMaterial) = some s2 ∧
      (∀ name : String, s2.uniform name = s1.uniform name) ∧
      s1.uniform "lightSources[3].focalStrength" = some (UniformValue.float 4.0) := by
  obtain ⟨s1, s2, h1, h2, hsame, _, _, hlights⟩ :=
    RenderScene_idempotent quarterTurnOps exampleScene woodShader rfl (by decide)
      (fun _ => staleMaterial) (fun _ => woodMaterial)
  exact ⟨rfl, by decide, s1, s2, h1, h2, hsame,
    (hlights ("lightSources[3].focalStrength", UniformValue.float 4.0)
      (by simp [RenderScene.lightConstants])).1⟩

end CS330
